import Mathlib

/-
Shallow embedding of the Data-Analysis ETL pipeline
(src/extract.py, src/transform_staging.py, src/transform_warehouse.py,
src/validation.py, src/load.py, src/incremental.py).

Tables are modelled as ordered lists of rows; a row is an association list
from column name to cell value.  A pandas cell is either missing (NaN/NaT),
a string, a number (exact rationals stand in for floats), or a timestamp
(ticks = minutes since an epoch; 1440 ticks per day, so a calendar date is
a tick count that is a multiple of 1440).
-/

namespace ETL

/-- A pandas cell value: missing marker (NaN/NaT), string, number, timestamp. -/
inductive Val : Type where
  | na : Val
  | str : String → Val
  | num : Rat → Val
  | date : Nat → Val
deriving DecidableEq, Repr

def Val.isNa : Val → Bool
  | .na => true
  | _ => false

def Val.isStr : Val → Bool
  | .str _ => true
  | _ => false

/-- A row: association list column-name ↦ cell value. -/
abbrev Row := List (String × Val)

/-- Reading a cell.  Every materialised cell exists in pandas, so a key
absent from the association list stands for a missing cell. -/
def Row.get (r : Row) (c : String) : Val :=
  match r.find? (fun p => p.1 == c) with
  | some p => p.2
  | none => Val.na

/-- Writing a cell (replaces the first binding for the column, or appends). -/
def Row.set (r : Row) (c : String) (v : Val) : Row :=
  match r with
  | [] => [(c, v)]
  | p :: rest => if p.1 == c then (c, v) :: rest else p :: Row.set rest c v

/-- A DataFrame: a column list and the rows. -/
structure DF : Type where
  cols : List String
  rows : List Row
deriving DecidableEq, Repr

def emptyDF : DF := ⟨[], []⟩

/-- `df[c] = series` where the series is computed row-wise; new columns are
appended to the column list (pandas column assignment). -/
def DF.setColWith (df : DF) (c : String) (f : Row → Val) : DF :=
  ⟨if c ∈ df.cols then df.cols else df.cols ++ [c],
   df.rows.map (fun r => Row.set r c (f r))⟩

/-- `df[c] = g(df[c])`: element-wise rewrite of an existing column. -/
def DF.mapCol (df : DF) (c : String) (g : Val → Val) : DF :=
  df.setColWith c (fun r => g (Row.get r c))

/-- The values of one column, in row order. -/
def colVals (df : DF) (c : String) : List Val :=
  df.rows.map (fun r => Row.get r c)

/- ----------------------------------------------------------------
   Cell-level coercions (pandas `astype(str)` / string methods /
   `pd.to_numeric(errors='coerce')` / `pd.to_datetime(errors='coerce')`).
   ---------------------------------------------------------------- -/

def trimChars (cs : List Char) : List Char :=
  ((cs.dropWhile Char.isWhitespace).reverse.dropWhile Char.isWhitespace).reverse

/-- Python `str.strip()`. -/
def pyStrip (s : String) : String := String.mk (trimChars s.data)

/-- Python `str.lower()`. -/
def pyLower (s : String) : String := String.mk (s.data.map Char.toLower)

def pyTitleGo : Bool → List Char → List Char
  | _, [] => []
  | prevAlpha, ch :: rest =>
      (if prevAlpha then ch.toLower else ch.toUpper) :: pyTitleGo ch.isAlpha rest

/-- Python `str.title()`: a letter is upper-cased when the previous
character is not alphabetic, lower-cased otherwise. -/
def pyTitle (s : String) : String := String.mk (pyTitleGo false s.data)

/-- `astype(str)` on one cell.  A missing cell (float NaN, which is what
`read_csv` puts in an empty text cell) stringifies to the literal "nan".
The exact rendering of a numeric or timestamp cell is irrelevant to every
property proved below; a simple total rendering is used. -/
def pyStr : Val → String
  | .na => "nan"
  | .str s => s
  | .num q => toString q.num ++ "/" ++ toString q.den
  | .date d => toString d

/-- `.astype(str).str.strip().str.title()` on one cell. -/
def strStripTitle (v : Val) : Val := .str (pyTitle (pyStrip (pyStr v)))

/-- `.astype(str).str.strip()` on one cell. -/
def strStrip (v : Val) : Val := .str (pyStrip (pyStr v))

/-- `.astype(str).str.strip().str.lower()` on one cell. -/
def strStripLower (v : Val) : Val := .str (pyLower (pyStrip (pyStr v)))

def allDigits (cs : List Char) : Bool := cs.all Char.isDigit

def digitsVal (cs : List Char) : Nat :=
  cs.foldl (fun a ch => a * 10 + (ch.toNat - 48)) 0

/-- Longest digit run at the head of the character list, and the rest. -/
def takeDigits : List Char → List Char × List Char
  | [] => ([], [])
  | ch :: rest =>
      if ch.isDigit then
        let p := takeDigits rest
        (ch :: p.1, p.2)
      else ([], ch :: rest)

def ratOfParts (neg : Bool) (ipart fpart k : Nat) : Rat :=
  let mag : Rat := (ipart : Rat) + (fpart : Rat) / ((10 : Rat) ^ k)
  if neg then -mag else mag

/-- Decimal-literal parse used by the `pd.to_numeric` model. -/
def parseRatOpt (s : String) : Option Rat :=
  let cs := trimChars s.data
  let sc : Bool × List Char :=
    match cs with
    | '-' :: t => (true, t)
    | '+' :: t => (false, t)
    | _ => (false, cs)
  let ip := takeDigits sc.2
  if ip.1.isEmpty then none
  else
    match ip.2 with
    | [] => some (ratOfParts sc.1 (digitsVal ip.1) 0 0)
    | '.' :: rest =>
        if allDigits rest && !rest.isEmpty then
          some (ratOfParts sc.1 (digitsVal ip.1) (digitsVal rest) rest.length)
        else none
    | _ => none

/-- `pd.to_numeric(x, errors='coerce')` on one cell: numbers pass through,
parseable strings become numbers, everything else becomes NaN.  (No staged
or warehouse column in this pipeline holds timestamps at the point where
`to_numeric` is applied.) -/
def to_numeric : Val → Val
  | .na => .na
  | .num q => .num q
  | .str s =>
      match parseRatOpt s with
      | some q => .num q
      | none => .na
  | .date _ => .na

def ticksPerDay : Nat := 1440

/-- Split a character list on the dash character. -/
def splitDash : List Char → List (List Char)
  | [] => [[]]
  | ch :: rest =>
      let r := splitDash rest
      if ch == '-' then [] :: r
      else
        match r with
        | [] => [[ch]]
        | g :: gs => (ch :: g) :: gs

/-- ISO `YYYY-MM-DD` parse; the returned tick count is a multiple of
`ticksPerDay` (a calendar date is a midnight timestamp). -/
def parseDateOpt (s : String) : Option Nat :=
  match splitDash (trimChars s.data) with
  | [ys, ms, ds] =>
      if allDigits ys && !ys.isEmpty && allDigits ms && !ms.isEmpty &&
          allDigits ds && !ds.isEmpty then
        let y := digitsVal ys
        let m := digitsVal ms
        let d := digitsVal ds
        if 1 ≤ m ∧ m ≤ 12 ∧ 1 ≤ d ∧ d ≤ 31 then
          some ((y * 372 + (m - 1) * 31 + (d - 1)) * ticksPerDay)
        else none
      else none
  | _ => none

/-- `pd.to_datetime(x, errors='coerce')` on one cell: timestamps pass
through, parseable date strings become timestamps, everything else becomes
NaT.  (No numeric column of this pipeline is ever fed to `to_datetime`.) -/
def to_datetime : Val → Val
  | .na => .na
  | .date d => .date d
  | .str s =>
      match parseDateOpt s with
      | some d => .date d
      | none => .na
  | .num _ => .na

/-- Multiplication of two series cells: NaN propagates. -/
def valMul : Val → Val → Val
  | .num a, .num b => .num (a * b)
  | _, _ => .na

/- ----------------------------------------------------------------
   `drop_duplicates(subset=pk)` (transform_staging.py).
   pandas `duplicated`/`drop_duplicates` treat NaN keys as equal to each
   other, so all NaN-keyed rows form a single duplicate group.
   ---------------------------------------------------------------- -/

/-- Keep a row exactly when its key value has not occurred on an earlier
row (`keep='first'`); `seen` accumulates the key values already emitted. -/
def keepFirstGo (key : Row → Val) : List Val → List Row → List Row
  | _, [] => []
  | seen, r :: rest =>
      if key r ∈ seen then keepFirstGo key seen rest
      else r :: keepFirstGo key (key r :: seen) rest

/-- `df.drop_duplicates(subset=pk)`. -/
def DF.dropDuplicates (df : DF) (pk : String) : DF :=
  ⟨df.cols, keepFirstGo (fun r => Row.get r pk) [] df.rows⟩

/-- Distinct values of a list in order of first occurrence. -/
def dedupKeysGo : List Val → List Val → List Val
  | _, [] => []
  | seen, v :: rest =>
      if v ∈ seen then dedupKeysGo seen rest
      else v :: dedupKeysGo (v :: seen) rest

def dedupKeys (l : List Val) : List Val := dedupKeysGo [] l

/- ----------------------------------------------------------------
   Stager (transform_staging.py).  Each `stage_*` copies its input,
   coerces the designated columns cell-wise, normalizes the text columns,
   and deduplicates on the primary key.  Reading a column that is absent
   from the frame raises a KeyError in pandas; this is the `.error` case.
   The NULL-primary-key count at the top of each function only feeds a
   log-warning and has no effect on the produced table.
   ---------------------------------------------------------------- -/

/-- Lines 22-28 of transform_staging.py: the cell-wise part of
`stage_users` before deduplication. -/
def usersClean (df : DF) : DF :=
  ((df.mapCol "signup_date" to_datetime).mapCol "gender" strStripTitle).mapCol
    "city" strStrip

def stage_users (df : DF) : Except Unit DF :=
  if "user_id" ∈ df.cols ∧ "signup_date" ∈ df.cols ∧ "gender" ∈ df.cols ∧
      "city" ∈ df.cols then
    .ok ((usersClean df).dropDuplicates "user_id")
  else .error ()

/-- Lines 48-57 of transform_staging.py: the cell-wise part of
`stage_products` (the `rating` coercion is conditional on the column). -/
def productsClean (df : DF) : DF :=
  (((if "rating" ∈ (df.mapCol "price" to_numeric).cols then
      (df.mapCol "price" to_numeric).mapCol "rating" to_numeric
    else
      df.mapCol "price" to_numeric).mapCol "category" strStrip).mapCol
    "brand" strStrip)

def stage_products (df : DF) : Except Unit DF :=
  if "product_id" ∈ df.cols ∧ "price" ∈ df.cols ∧ "category" ∈ df.cols ∧
      "brand" ∈ df.cols then
    .ok ((productsClean df).dropDuplicates "product_id")
  else .error ()

/-- Lines 77-86 of transform_staging.py: the cell-wise part of
`stage_orders`. -/
def ordersClean (df : DF) : DF :=
  ((df.mapCol "order_date" to_datetime).mapCol "order_status"
    strStripLower).mapCol "total_amount" to_numeric

def stage_orders (df : DF) : Except Unit DF :=
  if "order_id" ∈ df.cols ∧ "order_date" ∈ df.cols ∧
      "order_status" ∈ df.cols ∧ "total_amount" ∈ df.cols then
    .ok ((ordersClean df).dropDuplicates "order_id")
  else .error ()

/-- Lines 106-115 of transform_staging.py: the cell-wise part of
`stage_order_items` (the `item_total` coercion is conditional). -/
def orderItemsClean (df : DF) : DF :=
  if "item_total" ∈
      ((df.mapCol "quantity" to_numeric).mapCol "item_price" to_numeric).cols then
    ((df.mapCol "quantity" to_numeric).mapCol "item_price" to_numeric).mapCol
      "item_total" to_numeric
  else (df.mapCol "quantity" to_numeric).mapCol "item_price" to_numeric

def stage_order_items (df : DF) : Except Unit DF :=
  if "order_item_id" ∈ df.cols ∧ "quantity" ∈ df.cols ∧
      "item_price" ∈ df.cols then
    .ok ((orderItemsClean df).dropDuplicates "order_item_id")
  else .error ()

/-- Lines 135-140 of transform_staging.py: the cell-wise part of
`stage_events`. -/
def eventsClean (df : DF) : DF :=
  (df.mapCol "event_timestamp" to_datetime).mapCol "event_type" strStripLower

def stage_events (df : DF) : Except Unit DF :=
  if "event_id" ∈ df.cols ∧ "event_timestamp" ∈ df.cols ∧
      "event_type" ∈ df.cols then
    .ok ((eventsClean df).dropDuplicates "event_id")
  else .error ()

/-- Lines 160-165 of transform_staging.py: the cell-wise part of
`stage_reviews`. -/
def reviewsClean (df : DF) : DF :=
  (df.mapCol "rating" to_numeric).mapCol "review_date" to_datetime

def stage_reviews (df : DF) : Except Unit DF :=
  if "review_id" ∈ df.cols ∧ "rating" ∈ df.cols ∧
      "review_date" ∈ df.cols then
    .ok ((reviewsClean df).dropDuplicates "review_id")
  else .error ()

/- ----------------------------------------------------------------
   WarehouseBuilder (transform_warehouse.py), `build_fact_order_items`.
   `df.loc[mask, 'item_total'] = df.loc[mask,'quantity'] *
   df.loc[mask,'item_price']` selects the masked sub-series, multiplies
   them element-wise, and assigns the result back to the masked rows in
   order.
   ---------------------------------------------------------------- -/

/-- The right-hand side sub-series of the masked assignment: the
quantity × item_price products over the rows whose `item_total` is NaN. -/
def itemTotalFillVals (rows : List Row) : List Val :=
  (rows.filter (fun r => (Row.get r "item_total").isNa)).map
    (fun r => valMul (Row.get r "quantity") (Row.get r "item_price"))

/-- Masked aligned assignment: walk the rows; each row whose `c` cell is
NaN consumes the next value of the assigned sub-series. -/
def assignMasked (c : String) : List Row → List Val → List Row
  | [], _ => []
  | r :: rest, vals =>
      if (Row.get r c).isNa then
        match vals with
        | [] => r :: assignMasked c rest []
        | v :: vrest => Row.set r c v :: assignMasked c rest vrest
      else r :: assignMasked c rest vals

def build_fact_order_items (df0 : DF) : Except Unit DF :=
  let df := df0
  if "item_total" ∈ df.cols then
    if df.rows.any (fun r => (Row.get r "item_total").isNa) then
      if "quantity" ∈ df.cols ∧ "item_price" ∈ df.cols then
        .ok ⟨df.cols, assignMasked "item_total" df.rows (itemTotalFillVals df.rows)⟩
      else .error ()
    else .ok df
  else
    if "quantity" ∈ df.cols ∧ "item_price" ∈ df.cols then
      .ok (df.setColWith "item_total"
        (fun r => valMul (Row.get r "quantity") (Row.get r "item_price")))
    else .error ()

/- ----------------------------------------------------------------
   Validator (validation.py).  A table mapping is an insertion-ordered
   dictionary; each check returns an insertion-ordered result dictionary
   of violation counts (-1 marks a skipped sub-check in the primary-key
   and date checks).  `check_date_ranges` and `check_numeric_ranges`
   assign the coerced column back into the frame stored in the mapping
   (`df[col] = pd.to_datetime(...)` on the caller's object), so both are
   modelled as returning the updated mapping alongside their counts.
   ---------------------------------------------------------------- -/

abbrev ResMap := List (String × Int)

abbrev Tables := List (String × DF)

def lookupTable (ts : Tables) (n : String) : Option DF := List.lookup n ts

/-- Replace the frame stored under a name (in-place mutation of the
dictionary entry's object). -/
def updateTable (ts : Tables) (n : String) (df : DF) : Tables :=
  match ts with
  | [] => []
  | p :: rest => if p.1 == n then (n, df) :: rest else p :: updateTable rest n df

def pkMap : List (String × String) :=
  [("dim_users", "user_id"), ("dim_products", "product_id"),
   ("fact_orders", "order_id"), ("fact_order_items", "order_item_id"),
   ("fact_events", "event_id"), ("fact_reviews", "review_id")]

def check_null_primary_keys (tables : Tables) : ResMap :=
  pkMap.foldl (fun res p =>
    match lookupTable tables p.1 with
    | none => res
    | some df =>
        if p.2 ∈ df.cols then
          res ++ [(p.1, Int.ofNat ((colVals df p.2).countP Val.isNa))]
        else res ++ [(p.1, -1)]) []

structure FkRule : Type where
  child : String
  fk : String
  parent : String
  pk : String

def fkRules : List FkRule :=
  [⟨"fact_orders", "user_id", "dim_users", "user_id"⟩,
   ⟨"fact_order_items", "order_id", "fact_orders", "order_id"⟩,
   ⟨"fact_order_items", "product_id", "dim_products", "product_id"⟩,
   ⟨"fact_events", "user_id", "dim_users", "user_id"⟩,
   ⟨"fact_reviews", "product_id", "dim_products", "product_id"⟩]

/-- Orphan count of one rule: distinct non-null child foreign-key values
that appear among no parent primary-key value. -/
def orphanCount (cdf pdf : DF) (fk pk : String) : Nat :=
  (dedupKeys ((colVals cdf fk).filter (fun v => !v.isNa))).countP
    (fun v => decide (v ∉ colVals pdf pk))

def check_referential_integrity (tables : Tables) : ResMap :=
  fkRules.foldl (fun res rule =>
    match lookupTable tables rule.child, lookupTable tables rule.parent with
    | some cdf, some pdf =>
        if rule.fk ∈ cdf.cols ∧ rule.pk ∈ pdf.cols then
          res ++ [(rule.child ++ "." ++ rule.fk ++ " → " ++ rule.parent ++
            "." ++ rule.pk, Int.ofNat (orphanCount cdf pdf rule.fk rule.pk))]
        else res
    | _, _ => res) []

def dateColumns : List (String × String) :=
  [("dim_users", "signup_date"), ("fact_orders", "order_date"),
   ("fact_events", "event_timestamp"), ("fact_reviews", "review_date")]

/-- `today = pd.Timestamp(datetime.now().date())`: midnight at the start
of the day the run happens on. -/
def dateFloor (now : Nat) : Nat := now / ticksPerDay * ticksPerDay

/-- One cell of the boolean series `df[date_col] > today` (comparisons
against NaT are false). -/
def valAfter (v : Val) (t : Nat) : Bool :=
  match v with
  | .date d => decide (t < d)
  | _ => false

/-- One iteration of the `check_date_ranges` loop: coerce the column in
place (this writes through to the table mapping) and count the cells
beyond `today`. -/
def dateStep (today : Nat) (acc : ResMap × Tables) (p : String × String) :
    ResMap × Tables :=
  match lookupTable acc.2 p.1 with
  | none => acc
  | some df =>
      if p.2 ∈ df.cols then
        let df2 := df.mapCol p.2 to_datetime
        (acc.1 ++ [(p.1, Int.ofNat ((colVals df2 p.2).countP
            (fun v => valAfter v today)))],
         updateTable acc.2 p.1 df2)
      else (acc.1 ++ [(p.1, -1)], acc.2)

def check_date_ranges (now : Nat) (tables : Tables) : ResMap × Tables :=
  dateColumns.foldl (dateStep (dateFloor now)) ([], tables)

/-- A cell that counts as a future date: its coerced value is a timestamp
strictly after `today`. -/
def dateViolation (today : Nat) (v : Val) : Bool := valAfter (to_datetime v) today

/-- The result entry `check_date_ranges` produces for one configured
(table, column) pair, read off the un-mutated input mapping. -/
def dateEntry (today : Nat) (ts : Tables) (p : String × String) :
    Option (String × Int) :=
  match lookupTable ts p.1 with
  | none => none
  | some df =>
      some (p.1, if p.2 ∈ df.cols then
        Int.ofNat ((colVals df p.2).countP (dateViolation today)) else -1)

def numChecks : List (String × String × (Rat → Bool)) :=
  [("dim_products", "price", fun x => decide (0 ≤ x)),
   ("fact_orders", "total_amount", fun x => decide (0 ≤ x)),
   ("fact_order_items", "quantity", fun x => decide (0 < x)),
   ("fact_order_items", "item_price", fun x => decide (0 ≤ x))]

/-- One cell of the boolean series `condition(df[col])` (comparisons
against NaN are false). -/
def valCond (pred : Rat → Bool) (v : Val) : Bool :=
  match v with
  | .num q => pred q
  | _ => false

/-- One iteration of the `check_numeric_ranges` loop: coerce the column in
place (this writes through to the table mapping) and count the non-null
cells that fail the predicate. -/
def numStep (acc : ResMap × Tables) (trip : String × String × (Rat → Bool)) :
    ResMap × Tables :=
  match lookupTable acc.2 trip.1 with
  | none => acc
  | some df =>
      if trip.2.1 ∈ df.cols then
        let df2 := df.mapCol trip.2.1 to_numeric
        (acc.1 ++ [(trip.1 ++ "." ++ trip.2.1, Int.ofNat
            ((colVals df2 trip.2.1).countP
              (fun v => !valCond trip.2.2 v && !v.isNa)))],
         updateTable acc.2 trip.1 df2)
      else acc

def check_numeric_ranges (tables : Tables) : ResMap × Tables :=
  numChecks.foldl numStep ([], tables)

/-- A cell that counts as a numeric-range violation: it parses to a
number and that number fails the predicate (missing and unparseable
cells are excluded). -/
def numViolation (pred : Rat → Bool) (v : Val) : Bool :=
  match to_numeric v with
  | .num q => !pred q
  | _ => false

/-- The result entry `check_numeric_ranges` produces for one configured
(table, column, predicate) triple, read off the un-mutated input mapping. -/
def numEntry (ts : Tables) (trip : String × String × (Rat → Bool)) :
    Option (String × Int) :=
  match lookupTable ts trip.1 with
  | none => none
  | some df =>
      if trip.2.1 ∈ df.cols then
        some (trip.1 ++ "." ++ trip.2.1,
          Int.ofNat ((colVals df trip.2.1).countP (numViolation trip.2.2)))
      else none

/-- `any(count > 0 for count in results.values() if count >= 0)` (the
primary-key and date checks mark skipped sub-checks with -1). -/
def anyPosFiltered (m : ResMap) : Bool :=
  m.any (fun p => decide (0 ≤ p.2) && decide (0 < p.2))

/-- `any(count > 0 for count in results.values())`. -/
def anyPos (m : ResMap) : Bool := m.any (fun p => decide (0 < p.2))

/-- One `try/except` arm of `validate_all`: a check outcome leaves
`all_passed` true exactly when the check ran without an exception and
produced no positive violation count. -/
def armOk (filtered : Bool) (r : Except Unit ResMap) : Bool :=
  match r with
  | .ok m => !(if filtered then anyPosFiltered m else anyPos m)
  | .error _ => false

/-- The `all_passed` aggregation of `validate_all` over the four check
outcomes (exceptions included), in source order. -/
def validateAllCore (pk fk dr nr : Except Unit ResMap) : Bool :=
  armOk true pk && armOk false fk && armOk true dr && armOk false nr

/-- `validate_all(tables, fail_on_error)`; the `.error` result is the
raised ValidationError. -/
def validate_all (now : Nat) (tables : Tables) (fail_on_error : Bool) :
    Except Unit Bool :=
  let pkR := check_null_primary_keys tables
  let fkR := check_referential_integrity tables
  let d := check_date_ranges now tables
  let n := check_numeric_ranges d.2
  let allPassed := validateAllCore (.ok pkR) (.ok fkR) (.ok d.1) (.ok n.1)
  if fail_on_error && !allPassed then .error () else .ok allPassed

/- ----------------------------------------------------------------
   Extractor (extract.py).
   ---------------------------------------------------------------- -/

/-- The state of one raw source file: absent, present but unparsable, or
present with parsed contents. -/
inductive SourceFile : Type where
  | absent : SourceFile
  | unparsable : SourceFile
  | good : DF → SourceFile
deriving DecidableEq

/-- `load_csv_safe`: an absent file yields an empty frame (warning only);
a parse failure is re-raised. -/
def load_csv_safe : SourceFile → Except Unit DF
  | .absent => .ok emptyDF
  | .unparsable => .error ()
  | .good df => .ok df

def sourceNames : List String :=
  ["users", "products", "orders", "order_items", "events", "reviews"]

/-- `load_all_raw`: builds the raw-table dictionary source by source; the
first raised load aborts the whole phase with no partial result. -/
def load_all_raw (src : String → SourceFile) : Except Unit Tables := do
  let u ← load_csv_safe (src "users")
  let p ← load_csv_safe (src "products")
  let o ← load_csv_safe (src "orders")
  let oi ← load_csv_safe (src "order_items")
  let e ← load_csv_safe (src "events")
  let r ← load_csv_safe (src "reviews")
  return [("users", u), ("products", p), ("orders", o), ("order_items", oi),
    ("events", e), ("reviews", r)]

/-- The table `load_csv_safe` delivers for a source that loads. -/
def loadedTable : SourceFile → DF
  | .good df => df
  | _ => emptyDF

/- ----------------------------------------------------------------
   Sink (load.py), `save_as_csv`.  The file system is a mapping from
   table name to last durably written contents; `writeOk` says whether
   the write of a given table succeeds (covers both a raising `to_csv`
   and the file-not-created verification).
   ---------------------------------------------------------------- -/

abbrev FileSys := List (String × DF)

def fsWrite (fs : FileSys) (n : String) (df : DF) : FileSys :=
  match fs with
  | [] => [(n, df)]
  | p :: rest => if p.1 == n then (n, df) :: rest else p :: fsWrite rest n df

/-- One iteration of the `save_as_csv` loop: an empty frame is skipped
with a warning, a successful write replaces the file contents, a failed
write records the table name and moves on. -/
def saveStep (writeOk : String → Bool) (acc : FileSys × List String)
    (p : String × DF) : FileSys × List String :=
  if p.2.rows.isEmpty then acc
  else if writeOk p.1 then (fsWrite acc.1 p.1 p.2, acc.2)
  else (acc.1, acc.2 ++ [p.1])

def save_as_csv (writeOk : String → Bool) (tables : Tables) (fs0 : FileSys) :
    Except (List String) FileSys :=
  if (tables.foldl (saveStep writeOk) (fs0, ([] : List String))).2.isEmpty then
    .ok (tables.foldl (saveStep writeOk) (fs0, ([] : List String))).1
  else .error (tables.foldl (saveStep writeOk) (fs0, ([] : List String))).2

/-- The file-system contents after the `save_as_csv` loop. -/
def saveResultFs (writeOk : String → Bool) (tables : Tables)
    (fs0 : FileSys) : FileSys :=
  (tables.foldl (saveStep writeOk) (fs0, ([] : List String))).1

/-- The names of the non-empty tables whose write fails, in table order. -/
def failedTables (writeOk : String → Bool) (tables : Tables) : List String :=
  (tables.filter (fun p => !p.2.rows.isEmpty && !writeOk p.1)).map
    (fun p => p.1)

/- ----------------------------------------------------------------
   RunStateStore (incremental.py).  The persisted record on disk is
   either absent (`none`), unreadable (`some (.error ())`), or a parsed
   state (`some (.ok s)`).
   ---------------------------------------------------------------- -/

structure RunState : Type where
  lastRun : Option Nat
  tables : List (String × String)
deriving DecidableEq, Repr

def firstRunState : RunState := ⟨none, []⟩

def get_last_run_timestamp (disk : Option (Except Unit RunState)) : RunState :=
  match disk with
  | none => firstRunState
  | some (.error _) => firstRunState
  | some (.ok s) => s

def update_run_timestamp (now : Nat) (tableStates : List (String × String)) :
    RunState :=
  ⟨some now, tableStates⟩

def should_run_full_load (disk : Option (Except Unit RunState)) : Bool :=
  ((get_last_run_timestamp disk).lastRun).isNone

/-- Two table mappings agree at a configured (table, column, predicate)
triple: the table is stored in both or in neither, and when stored the
frames have the same column list and the same cells in that column. -/
def tablesAgree (ts tsRef : Tables) (trip : String × String × (Rat → Bool)) :
    Prop :=
  match lookupTable ts trip.1, lookupTable tsRef trip.1 with
  | none, none => True
  | some a, some b => a.cols = b.cols ∧ colVals a trip.2.1 = colVals b trip.2.1
  | _, _ => False

instance {ε α : Type} [DecidableEq ε] [DecidableEq α] :
    DecidableEq (Except ε α) := fun x y =>
  match x, y with
  | .error a, .error b =>
      if h : a = b then .isTrue (by rw [h])
      else .isFalse (fun he => h (Except.error.inj he))
  | .ok a, .ok b =>
      if h : a = b then .isTrue (by rw [h])
      else .isFalse (fun he => h (Except.ok.inj he))
  | .error _, .ok _ => .isFalse (fun he => Except.noConfusion he)
  | .ok _, .error _ => .isFalse (fun he => Except.noConfusion he)

/- ----------------------------------------------------------------
   Basic laws of the row / frame primitives.
   ---------------------------------------------------------------- -/

theorem Row.get_nil (c : String) : Row.get [] c = Val.na := rfl

theorem Row.get_cons (p : String × Val) (rest : Row) (c : String) :
    Row.get (p :: rest) c = if p.1 = c then p.2 else Row.get rest c := by
  by_cases h : p.1 = c
  · have hb : (p.1 == c) = true := by simp [h]
    simp [Row.get, List.find?, hb, h]
  · have hb : (p.1 == c) = false := by simp [h]
    simp [Row.get, List.find?, hb, h]

theorem Row.get_set (r : Row) (c c2 : String) (v : Val) :
    Row.get (Row.set r c v) c2 = if c2 = c then v else Row.get r c2 := by
  induction r with
  | nil =>
      by_cases h : c2 = c
      · subst h; simp [Row.set, Row.get_cons]
      · have hnc : ¬c = c2 := fun he => h he.symm
        simp [Row.set, Row.get_cons, h, hnc, Row.get_nil]
  | cons p rest ih =>
      by_cases hpc : p.1 = c
      · have hb : (p.1 == c) = true := by simp [hpc]
        by_cases h2 : c2 = c
        · subst h2; simp [Row.set, hb, Row.get_cons]
        · have hnc : ¬c = c2 := fun he => h2 he.symm
          simp [Row.set, hb, Row.get_cons, hnc, hpc, h2]
      · have hb : (p.1 == c) = false := by simp [hpc]
        simp only [Row.set, hb, Bool.false_eq_true, if_false]
        rw [Row.get_cons, Row.get_cons, ih]
        by_cases hp2 : p.1 = c2
        · have hn2 : ¬c2 = c := fun he => hpc (hp2.trans he)
          simp [hp2, hn2]
        · simp [hp2]

theorem DF.mapCol_cols_of_mem {df : DF} {c : String} (h : c ∈ df.cols)
    (g : Val → Val) : (df.mapCol c g).cols = df.cols := by
  simp [DF.mapCol, DF.setColWith, h]

theorem DF.mapCol_rows (df : DF) (c : String) (g : Val → Val) :
    (df.mapCol c g).rows =
      df.rows.map (fun r => Row.set r c (g (Row.get r c))) := rfl

theorem DF.mem_mapCol_cols (df : DF) (c : String) (g : Val → Val)
    (c2 : String) : c2 ∈ (df.mapCol c g).cols ↔ c2 ∈ df.cols ∨ c2 = c := by
  by_cases h : c ∈ df.cols
  · simp only [DF.mapCol, DF.setColWith, h, if_true]
    refine ⟨Or.inl, ?_⟩
    rintro (hm | rfl)
    · exact hm
    · exact h
  · simp [DF.mapCol, DF.setColWith, h, List.mem_append]

theorem colVals_mapCol_same (df : DF) (c : String) (g : Val → Val) :
    colVals (df.mapCol c g) c = (colVals df c).map g := by
  simp [colVals, DF.mapCol, DF.setColWith, List.map_map, Function.comp,
    Row.get_set]

theorem colVals_mapCol_ne (df : DF) (c : String) (g : Val → Val)
    (c2 : String) (h : c2 ≠ c) : colVals (df.mapCol c g) c2 = colVals df c2 := by
  simp [colVals, DF.mapCol, DF.setColWith, List.map_map, Function.comp,
    Row.get_set, h]

/- ----------------------------------------------------------------
   Laws of `drop_duplicates` (NaN keys form one duplicate group).
   ---------------------------------------------------------------- -/

theorem keepFirstGo_map_key (key : Row → Val) :
    ∀ (rows : List Row) (seen : List Val),
      (keepFirstGo key seen rows).map key = dedupKeysGo seen (rows.map key)
  | [], _ => rfl
  | r :: rest, seen => by
      by_cases h : key r ∈ seen <;>
        simp [keepFirstGo, dedupKeysGo, h, keepFirstGo_map_key key rest]

theorem keepFirstGo_sublist (key : Row → Val) :
    ∀ (rows : List Row) (seen : List Val),
      List.Sublist (keepFirstGo key seen rows) rows
  | [], _ => List.Sublist.slnil
  | r :: rest, seen => by
      by_cases h : key r ∈ seen
      · simpa [keepFirstGo, h] using
          List.Sublist.cons r (keepFirstGo_sublist key rest seen)
      · simpa [keepFirstGo, h] using
          List.Sublist.cons₂ r (keepFirstGo_sublist key rest (key r :: seen))

theorem dedupKeysGo_not_mem_seen :
    ∀ (l seen : List Val) (v : Val), v ∈ dedupKeysGo seen l → v ∉ seen
  | [], _, _, hv => by simp [dedupKeysGo] at hv
  | a :: rest, seen, v, hv => by
      by_cases h : a ∈ seen
      · exact dedupKeysGo_not_mem_seen rest seen v (by simpa [dedupKeysGo, h] using hv)
      · simp only [dedupKeysGo, h, if_false, List.mem_cons] at hv
        rcases hv with rfl | hv
        · exact h
        · intro hs
          exact dedupKeysGo_not_mem_seen rest (a :: seen) v hv
            (List.mem_cons_of_mem a hs)

theorem dedupKeysGo_nodup : ∀ (l seen : List Val), (dedupKeysGo seen l).Nodup
  | [], _ => List.nodup_nil
  | a :: rest, seen => by
      by_cases h : a ∈ seen
      · simpa [dedupKeysGo, h] using dedupKeysGo_nodup rest seen
      · simp only [dedupKeysGo, h, if_false]
        refine List.nodup_cons.2 ⟨?_, dedupKeysGo_nodup rest (a :: seen)⟩
        intro hmem
        exact dedupKeysGo_not_mem_seen rest (a :: seen) a hmem
          (List.mem_cons_self a seen)

theorem colVals_dropDuplicates (df : DF) (pk : String) :
    colVals (df.dropDuplicates pk) pk = dedupKeys (colVals df pk) := by
  simpa [DF.dropDuplicates, colVals, dedupKeys] using
    keepFirstGo_map_key (fun r => Row.get r pk) df.rows []

theorem dropDuplicates_rows_sublist (df : DF) (pk : String) :
    List.Sublist (df.dropDuplicates pk).rows df.rows :=
  keepFirstGo_sublist (fun r => Row.get r pk) df.rows []

theorem dropDuplicates_length (df : DF) (pk : String) :
    (df.dropDuplicates pk).rows.length = (dedupKeys (colVals df pk)).length := by
  have h := congrArg List.length (colVals_dropDuplicates df pk)
  simpa [colVals] using h

theorem dedupKeys_nodup (l : List Val) : (dedupKeys l).Nodup :=
  dedupKeysGo_nodup l []

/- ----------------------------------------------------------------
   The cell-wise staging transforms never touch the primary-key column.
   ---------------------------------------------------------------- -/

theorem usersClean_pk (df : DF) :
    colVals (usersClean df) "user_id" = colVals df "user_id" := by
  unfold usersClean
  rw [colVals_mapCol_ne _ _ _ _ (show "user_id" ≠ "city" by decide),
      colVals_mapCol_ne _ _ _ _ (show "user_id" ≠ "gender" by decide),
      colVals_mapCol_ne _ _ _ _ (show "user_id" ≠ "signup_date" by decide)]

theorem productsClean_pk (df : DF) :
    colVals (productsClean df) "product_id" = colVals df "product_id" := by
  unfold productsClean
  rw [colVals_mapCol_ne _ _ _ _ (show "product_id" ≠ "brand" by decide),
      colVals_mapCol_ne _ _ _ _ (show "product_id" ≠ "category" by decide)]
  by_cases h : "rating" ∈ (df.mapCol "price" to_numeric).cols
  · rw [if_pos h,
        colVals_mapCol_ne _ _ _ _ (show "product_id" ≠ "rating" by decide),
        colVals_mapCol_ne _ _ _ _ (show "product_id" ≠ "price" by decide)]
  · rw [if_neg h,
        colVals_mapCol_ne _ _ _ _ (show "product_id" ≠ "price" by decide)]

theorem ordersClean_pk (df : DF) :
    colVals (ordersClean df) "order_id" = colVals df "order_id" := by
  unfold ordersClean
  rw [colVals_mapCol_ne _ _ _ _ (show "order_id" ≠ "total_amount" by decide),
      colVals_mapCol_ne _ _ _ _ (show "order_id" ≠ "order_status" by decide),
      colVals_mapCol_ne _ _ _ _ (show "order_id" ≠ "order_date" by decide)]

theorem orderItemsClean_pk (df : DF) :
    colVals (orderItemsClean df) "order_item_id" =
      colVals df "order_item_id" := by
  unfold orderItemsClean
  by_cases h : "item_total" ∈
      ((df.mapCol "quantity" to_numeric).mapCol "item_price" to_numeric).cols
  · rw [if_pos h,
        colVals_mapCol_ne _ _ _ _ (show "order_item_id" ≠ "item_total" by decide),
        colVals_mapCol_ne _ _ _ _ (show "order_item_id" ≠ "item_price" by decide),
        colVals_mapCol_ne _ _ _ _ (show "order_item_id" ≠ "quantity" by decide)]
  · rw [if_neg h,
        colVals_mapCol_ne _ _ _ _ (show "order_item_id" ≠ "item_price" by decide),
        colVals_mapCol_ne _ _ _ _ (show "order_item_id" ≠ "quantity" by decide)]

theorem eventsClean_pk (df : DF) :
    colVals (eventsClean df) "event_id" = colVals df "event_id" := by
  unfold eventsClean
  rw [colVals_mapCol_ne _ _ _ _ (show "event_id" ≠ "event_type" by decide),
      colVals_mapCol_ne _ _ _ _ (show "event_id" ≠ "event_timestamp" by decide)]

theorem reviewsClean_pk (df : DF) :
    colVals (reviewsClean df) "review_id" = colVals df "review_id" := by
  unfold reviewsClean
  rw [colVals_mapCol_ne _ _ _ _ (show "review_id" ≠ "review_date" by decide),
      colVals_mapCol_ne _ _ _ _ (show "review_id" ≠ "rating" by decide)]

/- ----------------------------------------------------------------
   Claim C1.
   ---------------------------------------------------------------- -/

/-- C1 counterexample input: two raw user rows, both with a NULL
`user_id` and no duplicate non-null key. -/
def c1CexUsers : DF :=
  ⟨["user_id", "signup_date", "gender", "city"],
   [[("user_id", Val.na), ("city", Val.str "Pune")],
    [("user_id", Val.na), ("city", Val.str "Delhi")]]⟩

/-- C1 is false as stated: the claim says rows whose primary key is null
are never dropped, so staging the two NULL-keyed rows of `c1CexUsers`
would have to keep both.  `drop_duplicates` treats NaN keys as equal, so
`stage_users` keeps only the first of them: the staged output has one
row, not two. -/
theorem claim_C1_counterexample :
    (stage_users c1CexUsers).map (fun d => d.rows.length) = Except.ok 1 := by
  decide

/-- C1 (amended): for every raw input table with the referenced columns
present, each staging function succeeds and deduplicates on the primary
key with all null keys forming one duplicate group: the staged key column
lists the distinct key values (null included as one value) in order of
first occurrence, holds no repeated key value, the staged rows are a
subsequence of the cell-wise-transformed rows (first occurrences in
original row order), and the row count equals the number of distinct key
values — so the row count changes only through this deduplication. -/
theorem claim_C1_staging_dedup :
    (∀ df : DF, "user_id" ∈ df.cols → "signup_date" ∈ df.cols →
      "gender" ∈ df.cols → "city" ∈ df.cols →
      stage_users df = Except.ok ((usersClean df).dropDuplicates "user_id") ∧
      colVals ((usersClean df).dropDuplicates "user_id") "user_id" =
        dedupKeys (colVals df "user_id") ∧
      (colVals ((usersClean df).dropDuplicates "user_id") "user_id").Nodup ∧
      List.Sublist ((usersClean df).dropDuplicates "user_id").rows
        (usersClean df).rows ∧
      ((usersClean df).dropDuplicates "user_id").rows.length =
        (dedupKeys (colVals df "user_id")).length) ∧
    (∀ df : DF, "product_id" ∈ df.cols → "price" ∈ df.cols →
      "category" ∈ df.cols → "brand" ∈ df.cols →
      stage_products df =
        Except.ok ((productsClean df).dropDuplicates "product_id") ∧
      colVals ((productsClean df).dropDuplicates "product_id") "product_id" =
        dedupKeys (colVals df "product_id") ∧
      (colVals ((productsClean df).dropDuplicates "product_id")
        "product_id").Nodup ∧
      List.Sublist ((productsClean df).dropDuplicates "product_id").rows
        (productsClean df).rows ∧
      ((productsClean df).dropDuplicates "product_id").rows.length =
        (dedupKeys (colVals df "product_id")).length) ∧
    (∀ df : DF, "order_id" ∈ df.cols → "order_date" ∈ df.cols →
      "order_status" ∈ df.cols → "total_amount" ∈ df.cols →
      stage_orders df = Except.ok ((ordersClean df).dropDuplicates "order_id") ∧
      colVals ((ordersClean df).dropDuplicates "order_id") "order_id" =
        dedupKeys (colVals df "order_id") ∧
      (colVals ((ordersClean df).dropDuplicates "order_id") "order_id").Nodup ∧
      List.Sublist ((ordersClean df).dropDuplicates "order_id").rows
        (ordersClean df).rows ∧
      ((ordersClean df).dropDuplicates "order_id").rows.length =
        (dedupKeys (colVals df "order_id")).length) ∧
    (∀ df : DF, "order_item_id" ∈ df.cols → "quantity" ∈ df.cols →
      "item_price" ∈ df.cols →
      stage_order_items df =
        Except.ok ((orderItemsClean df).dropDuplicates "order_item_id") ∧
      colVals ((orderItemsClean df).dropDuplicates "order_item_id")
          "order_item_id" =
        dedupKeys (colVals df "order_item_id") ∧
      (colVals ((orderItemsClean df).dropDuplicates "order_item_id")
        "order_item_id").Nodup ∧
      List.Sublist ((orderItemsClean df).dropDuplicates "order_item_id").rows
        (orderItemsClean df).rows ∧
      ((orderItemsClean df).dropDuplicates "order_item_id").rows.length =
        (dedupKeys (colVals df "order_item_id")).length) ∧
    (∀ df : DF, "event_id" ∈ df.cols → "event_timestamp" ∈ df.cols →
      "event_type" ∈ df.cols →
      stage_events df = Except.ok ((eventsClean df).dropDuplicates "event_id") ∧
      colVals ((eventsClean df).dropDuplicates "event_id") "event_id" =
        dedupKeys (colVals df "event_id") ∧
      (colVals ((eventsClean df).dropDuplicates "event_id") "event_id").Nodup ∧
      List.Sublist ((eventsClean df).dropDuplicates "event_id").rows
        (eventsClean df).rows ∧
      ((eventsClean df).dropDuplicates "event_id").rows.length =
        (dedupKeys (colVals df "event_id")).length) ∧
    (∀ df : DF, "review_id" ∈ df.cols → "rating" ∈ df.cols →
      "review_date" ∈ df.cols →
      stage_reviews df =
        Except.ok ((reviewsClean df).dropDuplicates "review_id") ∧
      colVals ((reviewsClean df).dropDuplicates "review_id") "review_id" =
        dedupKeys (colVals df "review_id") ∧
      (colVals ((reviewsClean df).dropDuplicates "review_id")
        "review_id").Nodup ∧
      List.Sublist ((reviewsClean df).dropDuplicates "review_id").rows
        (reviewsClean df).rows ∧
      ((reviewsClean df).dropDuplicates "review_id").rows.length =
        (dedupKeys (colVals df "review_id")).length) := by
  refine ⟨?_, ?_, ?_, ?_, ?_, ?_⟩
  · intro df h1 h2 h3 h4
    exact ⟨by simp [stage_users, h1, h2, h3, h4],
      by rw [colVals_dropDuplicates, usersClean_pk],
      by rw [colVals_dropDuplicates, usersClean_pk]
         exact dedupKeys_nodup _,
      dropDuplicates_rows_sublist _ _,
      by rw [dropDuplicates_length, usersClean_pk]⟩
  · intro df h1 h2 h3 h4
    exact ⟨by simp [stage_products, h1, h2, h3, h4],
      by rw [colVals_dropDuplicates, productsClean_pk],
      by rw [colVals_dropDuplicates, productsClean_pk]
         exact dedupKeys_nodup _,
      dropDuplicates_rows_sublist _ _,
      by rw [dropDuplicates_length, productsClean_pk]⟩
  · intro df h1 h2 h3 h4
    exact ⟨by simp [stage_orders, h1, h2, h3, h4],
      by rw [colVals_dropDuplicates, ordersClean_pk],
      by rw [colVals_dropDuplicates, ordersClean_pk]
         exact dedupKeys_nodup _,
      dropDuplicates_rows_sublist _ _,
      by rw [dropDuplicates_length, ordersClean_pk]⟩
  · intro df h1 h2 h3
    exact ⟨by simp [stage_order_items, h1, h2, h3],
      by rw [colVals_dropDuplicates, orderItemsClean_pk],
      by rw [colVals_dropDuplicates, orderItemsClean_pk]
         exact dedupKeys_nodup _,
      dropDuplicates_rows_sublist _ _,
      by rw [dropDuplicates_length, orderItemsClean_pk]⟩
  · intro df h1 h2 h3
    exact ⟨by simp [stage_events, h1, h2, h3],
      by rw [colVals_dropDuplicates, eventsClean_pk],
      by rw [colVals_dropDuplicates, eventsClean_pk]
         exact dedupKeys_nodup _,
      dropDuplicates_rows_sublist _ _,
      by rw [dropDuplicates_length, eventsClean_pk]⟩
  · intro df h1 h2 h3
    exact ⟨by simp [stage_reviews, h1, h2, h3],
      by rw [colVals_dropDuplicates, reviewsClean_pk],
      by rw [colVals_dropDuplicates, reviewsClean_pk]
         exact dedupKeys_nodup _,
      dropDuplicates_rows_sublist _ _,
      by rw [dropDuplicates_length, reviewsClean_pk]⟩

/-- Concrete raw tables used to witness `claim_C1_staging_dedup`. -/
def c1wUsers : DF :=
  ⟨["user_id", "signup_date", "gender", "city"],
   [[("user_id", Val.num 1)], [("user_id", Val.num 1)],
    [("user_id", Val.num 2)]]⟩

def c1wProducts : DF :=
  ⟨["product_id", "price", "category", "brand"],
   [[("product_id", Val.num 7)], [("product_id", Val.num 7)]]⟩

def c1wOrders : DF :=
  ⟨["order_id", "order_date", "order_status", "total_amount"],
   [[("order_id", Val.num 3)]]⟩

def c1wOrderItems : DF :=
  ⟨["order_item_id", "quantity", "item_price"],
   [[("order_item_id", Val.na)], [("order_item_id", Val.na)]]⟩

def c1wEvents : DF :=
  ⟨["event_id", "event_timestamp", "event_type"],
   [[("event_id", Val.num 5)]]⟩

def c1wReviews : DF :=
  ⟨["review_id", "rating", "review_date"],
   [[("review_id", Val.num 9)]]⟩

/-- Witness for `claim_C1_staging_dedup` at concrete inputs. -/
theorem claim_C1_staging_dedup_witness :
    (stage_users c1wUsers =
        Except.ok ((usersClean c1wUsers).dropDuplicates "user_id") ∧
      colVals ((usersClean c1wUsers).dropDuplicates "user_id") "user_id" =
        dedupKeys (colVals c1wUsers "user_id") ∧
      (colVals ((usersClean c1wUsers).dropDuplicates "user_id")
        "user_id").Nodup ∧
      List.Sublist ((usersClean c1wUsers).dropDuplicates "user_id").rows
        (usersClean c1wUsers).rows ∧
      ((usersClean c1wUsers).dropDuplicates "user_id").rows.length =
        (dedupKeys (colVals c1wUsers "user_id")).length) ∧
    (stage_products c1wProducts =
        Except.ok ((productsClean c1wProducts).dropDuplicates "product_id") ∧
      colVals ((productsClean c1wProducts).dropDuplicates "product_id")
          "product_id" =
        dedupKeys (colVals c1wProducts "product_id") ∧
      (colVals ((productsClean c1wProducts).dropDuplicates "product_id")
        "product_id").Nodup ∧
      List.Sublist
        ((productsClean c1wProducts).dropDuplicates "product_id").rows
        (productsClean c1wProducts).rows ∧
      ((productsClean c1wProducts).dropDuplicates "product_id").rows.length =
        (dedupKeys (colVals c1wProducts "product_id")).length) ∧
    (stage_orders c1wOrders =
        Except.ok ((ordersClean c1wOrders).dropDuplicates "order_id") ∧
      colVals ((ordersClean c1wOrders).dropDuplicates "order_id") "order_id" =
        dedupKeys (colVals c1wOrders "order_id") ∧
      (colVals ((ordersClean c1wOrders).dropDuplicates "order_id")
        "order_id").Nodup ∧
      List.Sublist ((ordersClean c1wOrders).dropDuplicates "order_id").rows
        (ordersClean c1wOrders).rows ∧
      ((ordersClean c1wOrders).dropDuplicates "order_id").rows.length =
        (dedupKeys (colVals c1wOrders "order_id")).length) ∧
    (stage_order_items c1wOrderItems =
        Except.ok
          ((orderItemsClean c1wOrderItems).dropDuplicates "order_item_id") ∧
      colVals
          ((orderItemsClean c1wOrderItems).dropDuplicates "order_item_id")
          "order_item_id" =
        dedupKeys (colVals c1wOrderItems "order_item_id") ∧
      (colVals ((orderItemsClean c1wOrderItems).dropDuplicates
        "order_item_id") "order_item_id").Nodup ∧
      List.Sublist
        ((orderItemsClean c1wOrderItems).dropDuplicates "order_item_id").rows
        (orderItemsClean c1wOrderItems).rows ∧
      ((orderItemsClean c1wOrderItems).dropDuplicates
          "order_item_id").rows.length =
        (dedupKeys (colVals c1wOrderItems "order_item_id")).length) ∧
    (stage_events c1wEvents =
        Except.ok ((eventsClean c1wEvents).dropDuplicates "event_id") ∧
      colVals ((eventsClean c1wEvents).dropDuplicates "event_id") "event_id" =
        dedupKeys (colVals c1wEvents "event_id") ∧
      (colVals ((eventsClean c1wEvents).dropDuplicates "event_id")
        "event_id").Nodup ∧
      List.Sublist ((eventsClean c1wEvents).dropDuplicates "event_id").rows
        (eventsClean c1wEvents).rows ∧
      ((eventsClean c1wEvents).dropDuplicates "event_id").rows.length =
        (dedupKeys (colVals c1wEvents "event_id")).length) ∧
    (stage_reviews c1wReviews =
        Except.ok ((reviewsClean c1wReviews).dropDuplicates "review_id") ∧
      colVals ((reviewsClean c1wReviews).dropDuplicates "review_id")
          "review_id" =
        dedupKeys (colVals c1wReviews "review_id") ∧
      (colVals ((reviewsClean c1wReviews).dropDuplicates "review_id")
        "review_id").Nodup ∧
      List.Sublist ((reviewsClean c1wReviews).dropDuplicates "review_id").rows
        (reviewsClean c1wReviews).rows ∧
      ((reviewsClean c1wReviews).dropDuplicates "review_id").rows.length =
        (dedupKeys (colVals c1wReviews "review_id")).length) :=
  ⟨claim_C1_staging_dedup.1 c1wUsers (by decide) (by decide) (by decide)
      (by decide),
   claim_C1_staging_dedup.2.1 c1wProducts (by decide) (by decide) (by decide)
      (by decide),
   claim_C1_staging_dedup.2.2.1 c1wOrders (by decide) (by decide) (by decide)
      (by decide),
   claim_C1_staging_dedup.2.2.2.1 c1wOrderItems (by decide) (by decide)
      (by decide),
   claim_C1_staging_dedup.2.2.2.2.1 c1wEvents (by decide) (by decide)
      (by decide),
   claim_C1_staging_dedup.2.2.2.2.2 c1wReviews (by decide) (by decide)
      (by decide)⟩

/- ----------------------------------------------------------------
   Claim C3: `build_fact_order_items`.
   ---------------------------------------------------------------- -/

/-- The masked aligned assignment of the products sub-series coincides
with a per-row conditional update. -/
theorem assignMasked_filter_map (c : String) (f : Row → Val) :
    ∀ rows : List Row,
      assignMasked c rows
          ((rows.filter (fun r => (Row.get r c).isNa)).map f) =
        rows.map (fun r =>
          if (Row.get r c).isNa then Row.set r c (f r) else r)
  | [] => rfl
  | r :: rest => by
      by_cases h : (Row.get r c).isNa <;>
        simp [assignMasked, List.filter_cons, h,
          assignMasked_filter_map c f rest]

/-- `build_fact_order_items` when the `item_total` column exists: a
per-row conditional backfill. -/
theorem buildFOI_with_column (df : DF) (hit : "item_total" ∈ df.cols)
    (hq : "quantity" ∈ df.cols) (hp : "item_price" ∈ df.cols) :
    build_fact_order_items df = Except.ok
      ⟨df.cols, df.rows.map (fun r =>
        if (Row.get r "item_total").isNa then
          Row.set r "item_total"
            (valMul (Row.get r "quantity") (Row.get r "item_price"))
        else r)⟩ := by
  by_cases hany : df.rows.any (fun r => (Row.get r "item_total").isNa)
  · simp only [build_fact_order_items, hit, if_true, hany,
      and_true, hq, hp, and_self, itemTotalFillVals]
    rw [assignMasked_filter_map]
  · simp only [build_fact_order_items, hit, if_true, hany,
      Bool.false_eq_true, if_false]
    have hrows : ∀ r ∈ df.rows, (Row.get r "item_total").isNa = false := by
      simpa [List.any_eq_true] using hany
    have hmap : df.rows.map (fun r =>
        if (Row.get r "item_total").isNa then
          Row.set r "item_total"
            (valMul (Row.get r "quantity") (Row.get r "item_price"))
        else r) = df.rows :=
      calc df.rows.map (fun r =>
            if (Row.get r "item_total").isNa then
              Row.set r "item_total"
                (valMul (Row.get r "quantity") (Row.get r "item_price"))
            else r)
          = df.rows.map id :=
            List.map_congr_left (fun r hr => by simp [hrows r hr])
        _ = df.rows := List.map_id _
    rw [hmap]

/-- `build_fact_order_items` when the `item_total` column is absent: the
column is created from `quantity × item_price` on every row. -/
theorem buildFOI_without_column (df : DF) (hit : "item_total" ∉ df.cols)
    (hq : "quantity" ∈ df.cols) (hp : "item_price" ∈ df.cols) :
    build_fact_order_items df = Except.ok
      ⟨df.cols ++ ["item_total"], df.rows.map (fun r =>
        Row.set r "item_total"
          (valMul (Row.get r "quantity") (Row.get r "item_price")))⟩ := by
  simp only [build_fact_order_items, hit, if_false, hq, hp, and_self,
    if_true, DF.setColWith]

/-- C3: when the staged order-items table has an `item_total` column,
exactly the rows whose `item_total` is missing get it recomputed as
`quantity × item_price` and all other rows are returned unchanged; when
the column is absent it is computed for every row and appended to the
column list.  Concretely, a missing total with `quantity = 3` and
`item_price = 10` becomes `30`, while an explicit total of `25` stays
`25` even though `3 × 10 ≠ 25`. -/
theorem claim_C3_item_total_backfill :
    (∀ df : DF, "item_total" ∈ df.cols → "quantity" ∈ df.cols →
      "item_price" ∈ df.cols →
      build_fact_order_items df = Except.ok
        ⟨df.cols, df.rows.map (fun r =>
          if (Row.get r "item_total").isNa then
            Row.set r "item_total"
              (valMul (Row.get r "quantity") (Row.get r "item_price"))
          else r)⟩) ∧
    (∀ df : DF, "item_total" ∉ df.cols → "quantity" ∈ df.cols →
      "item_price" ∈ df.cols →
      build_fact_order_items df = Except.ok
        ⟨df.cols ++ ["item_total"], df.rows.map (fun r =>
          Row.set r "item_total"
            (valMul (Row.get r "quantity") (Row.get r "item_price")))⟩) ∧
    (build_fact_order_items
        ⟨["order_item_id", "quantity", "item_price", "item_total"],
         [[("order_item_id", Val.num 1), ("quantity", Val.num 3),
           ("item_price", Val.num 10), ("item_total", Val.na)],
          [("order_item_id", Val.num 2), ("quantity", Val.num 3),
           ("item_price", Val.num 10), ("item_total", Val.num 25)]]⟩).map
      (fun d => colVals d "item_total") =
      Except.ok [Val.num 30, Val.num 25] ∧
    (build_fact_order_items
        ⟨["order_item_id", "quantity", "item_price"],
         [[("order_item_id", Val.num 1), ("quantity", Val.num 3),
           ("item_price", Val.num 10)]]⟩).map
      (fun d => colVals d "item_total") = Except.ok [Val.num 30] := by
  refine ⟨buildFOI_with_column, buildFOI_without_column, ?_, ?_⟩
  · rw [buildFOI_with_column _ (by decide) (by decide) (by decide)]
    simp only [Except.map]
    simp [colVals, Row.get_cons, Row.get_set, Row.set, Val.isNa, valMul]
    norm_num
  · rw [buildFOI_without_column _ (by decide) (by decide) (by decide)]
    simp only [Except.map]
    simp [colVals, Row.get_cons, Row.get_set, Row.set, Val.isNa, valMul]
    norm_num

/- ----------------------------------------------------------------
   Claim C2: `validate_all`.
   ---------------------------------------------------------------- -/

theorem anyPosFiltered_eq_false (m : ResMap) :
    anyPosFiltered m = false ↔ ∀ p ∈ m, 0 ≤ p.2 → p.2 = 0 := by
  simp only [anyPosFiltered, List.any_eq_false, Bool.and_eq_true,
    decide_eq_true_eq, not_and]
  constructor
  · intro h p hp hle
    have := h p hp
    omega
  · intro h p hp hle
    have := h p hp hle
    omega

theorem anyPos_eq_false (m : ResMap) :
    anyPos m = false ↔ ∀ p ∈ m, p.2 ≤ 0 := by
  simp only [anyPos, List.any_eq_false, decide_eq_true_eq, not_lt]

/-- Every referential-integrity entry is a non-negative orphan count. -/
theorem ri_entries_nonneg (tables : Tables) :
    ∀ p ∈ check_referential_integrity tables, 0 ≤ p.2 := by
  unfold check_referential_integrity
  have main : ∀ (rules : List FkRule) (res0 : ResMap),
      (∀ p ∈ res0, 0 ≤ p.2) →
      ∀ p ∈ rules.foldl (fun res rule =>
        match lookupTable tables rule.child, lookupTable tables rule.parent with
        | some cdf, some pdf =>
            if rule.fk ∈ cdf.cols ∧ rule.pk ∈ pdf.cols then
              res ++ [(rule.child ++ "." ++ rule.fk ++ " → " ++ rule.parent ++
                "." ++ rule.pk, Int.ofNat (orphanCount cdf pdf rule.fk rule.pk))]
            else res
        | _, _ => res) res0, 0 ≤ p.2 := by
    intro rules
    induction rules with
    | nil => intro res0 h0 p hp; exact h0 p hp
    | cons rule rest ih =>
        intro res0 h0 p hp
        refine ih _ ?_ p hp
        rcases hc : lookupTable tables rule.child with _ | cdf <;>
          rcases hpar : lookupTable tables rule.parent with _ | pdf <;>
          simp only [hc, hpar]
        · exact h0
        · exact h0
        · exact h0
        · split
          · intro q hq
            rcases List.mem_append.1 hq with hq | hq
            · exact h0 q hq
            · simp only [List.mem_singleton] at hq
              subst hq
              exact Int.ofNat_nonneg _
          · exact h0
  exact main fkRules [] (by simp)

/-- Every numeric-range entry is a non-negative violation count. -/
theorem nr_entries_nonneg (tables : Tables) :
    ∀ p ∈ (check_numeric_ranges tables).1, 0 ≤ p.2 := by
  unfold check_numeric_ranges
  have main : ∀ (cfg : List (String × String × (Rat → Bool)))
      (acc : ResMap × Tables), (∀ p ∈ acc.1, 0 ≤ p.2) →
      ∀ p ∈ (cfg.foldl numStep acc).1, 0 ≤ p.2 := by
    intro cfg
    induction cfg with
    | nil => intro acc h0 p hp; exact h0 p hp
    | cons trip rest ih =>
        intro acc h0 p hp
        refine ih _ ?_ p hp
        unfold numStep
        rcases ht : lookupTable acc.2 trip.1 with _ | df <;> simp only [ht]
        · exact h0
        · split
          · intro q hq
            rcases List.mem_append.1 hq with hq | hq
            · exact h0 q hq
            · simp only [List.mem_singleton] at hq
              subst hq
              exact Int.ofNat_nonneg _
          · exact h0
  exact main numChecks ([], tables) (by simp)

/-- C2: `validate_all` returns ok-true exactly when every executed
sub-check of all four checks reported zero violations; an exception in a
check makes the aggregate false while the other checks still determine
their own contribution; a sub-check skipped with a -1 marker never flips
the aggregate; and with `fail_on_error` set a non-passing run raises
instead of returning false. -/
theorem claim_C2_validate_all :
    (∀ a b c d : Except Unit ResMap,
      validateAllCore a b c d = true ↔
        (∃ m, a = Except.ok m ∧ ∀ p ∈ m, 0 ≤ p.2 → p.2 = 0) ∧
        (∃ m, b = Except.ok m ∧ ∀ p ∈ m, p.2 ≤ 0) ∧
        (∃ m, c = Except.ok m ∧ ∀ p ∈ m, 0 ≤ p.2 → p.2 = 0) ∧
        (∃ m, d = Except.ok m ∧ ∀ p ∈ m, p.2 ≤ 0)) ∧
    ((∀ b c d, validateAllCore (Except.error ()) b c d = false) ∧
     (∀ a c d, validateAllCore a (Except.error ()) c d = false) ∧
     (∀ a b d, validateAllCore a b (Except.error ()) d = false) ∧
     (∀ a b c, validateAllCore a b c (Except.error ()) = false)) ∧
    (∀ (m1 m3 : ResMap) (b d : Except Unit ResMap) (n1 n3 : String),
      validateAllCore (Except.ok (m1 ++ [(n1, -1)])) b
          (Except.ok (m3 ++ [(n3, -1)])) d =
        validateAllCore (Except.ok m1) b (Except.ok m3) d) ∧
    (∀ (now : Nat) (tables : Tables),
      validate_all now tables false = Except.ok true ↔
        (∀ p ∈ check_null_primary_keys tables, 0 ≤ p.2 → p.2 = 0) ∧
        (∀ p ∈ check_referential_integrity tables, p.2 = 0) ∧
        (∀ p ∈ (check_date_ranges now tables).1, 0 ≤ p.2 → p.2 = 0) ∧
        (∀ p ∈ (check_numeric_ranges (check_date_ranges now tables).2).1,
          p.2 = 0)) ∧
    (∀ (now : Nat) (tables : Tables),
      (validate_all now tables true = Except.error () ↔
        validate_all now tables false = Except.ok false) ∧
      (validate_all now tables true = Except.ok true ↔
        validate_all now tables false = Except.ok true)) := by
  have hcore : ∀ a b c d : Except Unit ResMap,
      validateAllCore a b c d = true ↔
        (∃ m, a = Except.ok m ∧ ∀ p ∈ m, 0 ≤ p.2 → p.2 = 0) ∧
        (∃ m, b = Except.ok m ∧ ∀ p ∈ m, p.2 ≤ 0) ∧
        (∃ m, c = Except.ok m ∧ ∀ p ∈ m, 0 ≤ p.2 → p.2 = 0) ∧
        (∃ m, d = Except.ok m ∧ ∀ p ∈ m, p.2 ≤ 0) := by
    intro a b c d
    rcases a with a | ma <;> rcases b with b | mb <;> rcases c with c | mc <;>
      rcases d with d | md
    all_goals
      simp [validateAllCore, armOk, anyPosFiltered_eq_false, anyPos_eq_false]
    all_goals tauto
  refine ⟨hcore, ⟨?_, ?_, ?_, ?_⟩, ?_, ?_, ?_⟩
  · intro b c d; simp [validateAllCore, armOk]
  · intro a c d; simp [validateAllCore, armOk]
  · intro a c d; simp [validateAllCore, armOk]
  · intro a b c; simp [validateAllCore, armOk]
  · intro m1 m3 b d n1 n3
    have h1 : anyPosFiltered (m1 ++ [(n1, -1)]) = anyPosFiltered m1 := by
      simp [anyPosFiltered, List.any_append]
    have h3 : anyPosFiltered (m3 ++ [(n3, -1)]) = anyPosFiltered m3 := by
      simp [anyPosFiltered, List.any_append]
    simp [validateAllCore, armOk, h1, h3]
  · intro now tables
    have hok : validate_all now tables false =
        Except.ok (validateAllCore
          (Except.ok (check_null_primary_keys tables))
          (Except.ok (check_referential_integrity tables))
          (Except.ok (check_date_ranges now tables).1)
          (Except.ok (check_numeric_ranges (check_date_ranges now tables).2).1)) := by
      simp [validate_all]
    rw [hok]
    have := hcore (Except.ok (check_null_primary_keys tables))
      (Except.ok (check_referential_integrity tables))
      (Except.ok (check_date_ranges now tables).1)
      (Except.ok (check_numeric_ranges (check_date_ranges now tables).2).1)
    simp only [Except.ok.injEq] at this ⊢
    rw [this]
    constructor
    · rintro ⟨⟨m1, hm1, h1⟩, ⟨m2, hm2, h2⟩, ⟨m3, hm3, h3⟩, ⟨m4, hm4, h4⟩⟩
      cases hm1; cases hm2; cases hm3; cases hm4
      refine ⟨h1, ?_, h3, ?_⟩
      · intro p hp
        exact le_antisymm (h2 p hp) (ri_entries_nonneg tables p hp)
      · intro p hp
        exact le_antisymm (h4 p hp) (nr_entries_nonneg _ p hp)
    · rintro ⟨h1, h2, h3, h4⟩
      exact ⟨⟨_, rfl, h1⟩, ⟨_, rfl, fun p hp => le_of_eq (h2 p hp)⟩,
        ⟨_, rfl, h3⟩, ⟨_, rfl, fun p hp => le_of_eq (h4 p hp)⟩⟩
  · intro now tables
    constructor
    · cases hP : validateAllCore
          (Except.ok (check_null_primary_keys tables))
          (Except.ok (check_referential_integrity tables))
          (Except.ok (check_date_ranges now tables).1)
          (Except.ok (check_numeric_ranges (check_date_ranges now tables).2).1) <;>
        simp [validate_all, hP]
    · cases hP : validateAllCore
          (Except.ok (check_null_primary_keys tables))
          (Except.ok (check_referential_integrity tables))
          (Except.ok (check_date_ranges now tables).1)
          (Except.ok (check_numeric_ranges (check_date_ranges now tables).2).1) <;>
        simp [validate_all, hP]

/-- Witness for `claim_C2_validate_all`: on the empty table mapping every
sub-check is skipped, so validation passes in both modes. -/
theorem claim_C2_validate_all_witness :
    validate_all 0 ([] : Tables) false = Except.ok true ∧
    validate_all 0 ([] : Tables) true = Except.ok true := by
  have h4 := (claim_C2_validate_all.2.2.2.1 0 ([] : Tables)).mpr
    (by refine ⟨?_, ?_, ?_, ?_⟩ <;> decide)
  exact ⟨h4, (claim_C2_validate_all.2.2.2.2 0 ([] : Tables)).2.mpr h4⟩

/- ----------------------------------------------------------------
   Claims C4 / C5: the date-range and numeric-range checks.
   ---------------------------------------------------------------- -/

theorem lookupTable_update_ne (ts : Tables) (n : String) (df : DF)
    {m : String} (h : m ≠ n) :
    lookupTable (updateTable ts n df) m = lookupTable ts m := by
  induction ts with
  | nil => rfl
  | cons p rest ih =>
      by_cases hp : p.1 = n
      · have hb : (p.1 == n) = true := by simp [hp]
        have hmn : (m == n) = false := by
          simp only [beq_eq_false_iff_ne, ne_eq]; exact h
        have hmp : (m == p.1) = false := by
          rw [hp]
          simp only [beq_eq_false_iff_ne, ne_eq]; exact h
        simp [updateTable, lookupTable, hb, List.lookup, hmn, hmp]
      · have hb : (p.1 == n) = false := by simp [hp]
        cases hmp : (m == p.1)
        · simpa [updateTable, lookupTable, hb, List.lookup, hmp] using ih
        · simp [updateTable, lookupTable, hb, List.lookup, hmp]

theorem lookupTable_update_eq (ts : Tables) (n : String) (df : DF) :
    ∀ {a : DF}, lookupTable ts n = some a →
      lookupTable (updateTable ts n df) n = some df := by
  induction ts with
  | nil => intro a h; simp [lookupTable, List.lookup] at h
  | cons p rest ih =>
      intro a h
      by_cases hp : p.1 = n
      · have hb : (p.1 == n) = true := by simp [hp]
        have hnn : (n == n) = true := by simp
        simp [updateTable, lookupTable, hb, List.lookup, hnn]
      · have hb : (p.1 == n) = false := by simp [hp]
        have hnp : (n == p.1) = false := by
          simp only [beq_eq_false_iff_ne, ne_eq]
          exact fun he => hp he.symm
        simp only [lookupTable, List.lookup, hnp] at h
        simpa [updateTable, lookupTable, hb, List.lookup, hnp] using ih h

/-- The cell predicate of the numeric-range loop, applied after the
in-place coercion, is the claim-level violation predicate. -/
theorem numStep_pred_eq (pred : Rat → Bool) (v : Val) :
    (!valCond pred (to_numeric v) && !(to_numeric v).isNa) =
      numViolation pred v := by
  cases v with
  | na => rfl
  | num q => cases hp : pred q <;>
      simp [to_numeric, valCond, numViolation, Val.isNa, hp]
  | date d => rfl
  | str s =>
      rcases hp : parseRatOpt s with _ | q
      · simp [to_numeric, valCond, numViolation, Val.isNa, hp]
      · cases hq : pred q <;>
          simp [to_numeric, valCond, numViolation, Val.isNa, hp, hq]

/-- Unrolling the date-range fold: with pairwise-distinct configured
table names, the in-place mutations never affect a later iteration, so
the produced counts read off the original mapping. -/
theorem dateFold (today : Nat) :
    ∀ (cfg : List (String × String)),
      cfg.Pairwise (fun a b => a.1 ≠ b.1) →
      ∀ (res0 : ResMap) (ts tsRef : Tables),
        (∀ q ∈ cfg, lookupTable ts q.1 = lookupTable tsRef q.1) →
        (cfg.foldl (dateStep today) (res0, ts)).1 =
          res0 ++ cfg.filterMap (dateEntry today tsRef)
  | [], _, res0, ts, tsRef, _ => by simp
  | p :: rest, hpw, res0, ts, tsRef, hAg => by
      have hpw2 := (List.pairwise_cons.1 hpw)
      have hhead : lookupTable ts p.1 = lookupTable tsRef p.1 :=
        hAg p (List.mem_cons_self p rest)
      simp only [List.foldl_cons, List.filterMap_cons]
      rcases hl : lookupTable ts p.1 with _ | df
      · have href : lookupTable tsRef p.1 = none := by rw [← hhead, hl]
        simp only [dateStep, hl, dateEntry, href]
        exact dateFold today rest hpw2.2 res0 ts tsRef
          (fun q hq => hAg q (List.mem_cons_of_mem p hq))
      · have href : lookupTable tsRef p.1 = some df := by rw [← hhead, hl]
        by_cases hc : p.2 ∈ df.cols
        · have hcnt : (colVals (df.mapCol p.2 to_datetime) p.2).countP
              (fun v => valAfter v today) =
              (colVals df p.2).countP (dateViolation today) := by
            rw [colVals_mapCol_same, List.countP_map]
            rfl
          simp only [dateStep, hl, hc, if_true, dateEntry, href, hcnt]
          rw [dateFold today rest hpw2.2 _ (updateTable ts p.1
              (df.mapCol p.2 to_datetime)) tsRef
            (fun q hq => by
              rw [lookupTable_update_ne ts p.1 _ (hpw2.1 q hq).symm]
              exact hAg q (List.mem_cons_of_mem p hq))]
          simp
        · simp only [dateStep, hl, hc, if_false, dateEntry, href]
          rw [dateFold today rest hpw2.2 _ ts tsRef
            (fun q hq => hAg q (List.mem_cons_of_mem p hq))]
          simp

/-- Unrolling the numeric-range fold: an earlier in-place coercion can
touch a later iteration's table only at a different column, so the
produced counts read off the original mapping. -/
theorem numFold :
    ∀ (cfg : List (String × String × (Rat → Bool))),
      cfg.Pairwise (fun a b => a.1 ≠ b.1 ∨ a.2.1 ≠ b.2.1) →
      ∀ (res0 : ResMap) (ts tsRef : Tables),
        (∀ q ∈ cfg, tablesAgree ts tsRef q) →
        (cfg.foldl numStep (res0, ts)).1 =
          res0 ++ cfg.filterMap (numEntry tsRef)
  | [], _, res0, ts, tsRef, _ => by simp
  | trip :: rest, hpw, res0, ts, tsRef, hAg => by
      have hpw2 := (List.pairwise_cons.1 hpw)
      have hhead := hAg trip (List.mem_cons_self trip rest)
      simp only [List.foldl_cons, List.filterMap_cons]
      rcases hl : lookupTable ts trip.1 with _ | a <;>
        rcases hr : lookupTable tsRef trip.1 with _ | b <;>
        rw [tablesAgree, hl, hr] at hhead
      · simp only [numStep, hl, numEntry, hr]
        exact numFold rest hpw2.2 res0 ts tsRef
          (fun q hq => hAg q (List.mem_cons_of_mem trip hq))
      · exact hhead.elim
      · exact hhead.elim
      · by_cases hc : trip.2.1 ∈ a.cols
        · have hcb : trip.2.1 ∈ b.cols := hhead.1 ▸ hc
          have hcnt : (colVals (a.mapCol trip.2.1 to_numeric)
                trip.2.1).countP
                (fun v => !valCond trip.2.2 v && !v.isNa) =
              (colVals b trip.2.1).countP (numViolation trip.2.2) := by
            rw [colVals_mapCol_same, List.countP_map, ← hhead.2]
            refine List.countP_congr ?_
            intro v _
            simp only [Function.comp_apply]
            rw [numStep_pred_eq]
          simp only [numStep, hl, hc, if_true, numEntry, hr, hcb, hcnt]
          rw [numFold rest hpw2.2 _ (updateTable ts trip.1
              (a.mapCol trip.2.1 to_numeric)) tsRef
            (fun q hq => by
              rcases hpw2.1 q hq with hne | hnc
              · rw [tablesAgree, lookupTable_update_ne ts trip.1 _ hne.symm]
                have := hAg q (List.mem_cons_of_mem trip hq)
                rwa [tablesAgree] at this
              · by_cases hqe : q.1 = trip.1
                · have hq0 := hAg q (List.mem_cons_of_mem trip hq)
                  rw [tablesAgree, hqe, hl, hr] at hq0
                  obtain ⟨hq1, hq2⟩ := hq0
                  rw [tablesAgree, hqe,
                    lookupTable_update_eq ts trip.1 _ hl, hr]
                  exact ⟨by rw [DF.mapCol_cols_of_mem hc]; exact hq1,
                    by rw [colVals_mapCol_ne a trip.2.1 to_numeric q.2.1
                         (Ne.symm hnc)]
                       exact hq2⟩
                · rw [tablesAgree, lookupTable_update_ne ts trip.1 _ hqe]
                  have := hAg q (List.mem_cons_of_mem trip hq)
                  rwa [tablesAgree] at this)]
          simp
        · have hcb : trip.2.1 ∉ b.cols := hhead.1 ▸ hc
          simp only [numStep, hl, hc, if_false, numEntry, hr, hcb]
          exact numFold rest hpw2.2 res0 ts tsRef
            (fun q hq => hAg q (List.mem_cons_of_mem trip hq))

theorem tablesAgree_refl (ts : Tables) (q : String × String × (Rat → Bool)) :
    tablesAgree ts ts q := by
  rw [tablesAgree]
  rcases hl : lookupTable ts q.1 with _ | a
  · trivial
  · exact ⟨rfl, rfl⟩

/- ----------------------------------------------------------------
   Claim C4 theorems.
   ---------------------------------------------------------------- -/

/-- C4 counterexample input: one event whose timestamp lies earlier on
the same day as the processing time 999900 (the day starts at tick
999360). -/
def c4cexTables : Tables :=
  [("fact_events", ⟨["event_id", "event_timestamp"],
    [[("event_id", Val.num 1), ("event_timestamp", Val.date 999500)]]⟩)]

/-- C4 is false as stated: at processing time 999900 the single
`fact_events` row carries timestamp 999500, which is not strictly after
the current processing time, so by the claim it contributes no
violation; `check_date_ranges` nevertheless reports one violation,
because the code compares against midnight of the processing day
(`pd.Timestamp(datetime.now().date())`), not against the processing
time. -/
theorem claim_C4_counterexample :
    (check_date_ranges 999900 c4cexTables).1 = [("fact_events", 1)] ∧
    (colVals ⟨["event_id", "event_timestamp"],
        [[("event_id", Val.num 1), ("event_timestamp", Val.date 999500)]]⟩
      "event_timestamp").countP (fun v => valAfter v 999900) = 0 := by
  decide

/-- C4 concrete input: one `fact_orders` row whose `order_date` is one
day after the processing time 1000000. -/
def c4Tables : Tables :=
  [("fact_orders", ⟨["order_id", "order_date"],
    [[("order_id", Val.num 1), ("order_date", Val.date 1001440)]]⟩)]

/-- C4 (amended): `check_date_ranges` counts, for each configured
(table, date column) pair present in the input, exactly the rows whose
coerced date value is strictly after midnight at the start of the
current processing day (a skipped pair yields no entry, a present table
with a missing column yields the -1 marker inside `dateEntry`); in
particular one `fact_orders` row dated one day in the future yields
exactly one violation for `fact_orders` and makes `validate_all` return
false. -/
theorem claim_C4_date_ranges :
    (∀ (now : Nat) (tables : Tables),
      (check_date_ranges now tables).1 =
        dateColumns.filterMap (dateEntry (dateFloor now) tables)) ∧
    (check_date_ranges 1000000 c4Tables).1 = [("fact_orders", 1)] ∧
    validate_all 1000000 c4Tables false = Except.ok false := by
  refine ⟨?_, by decide, by decide⟩
  intro now tables
  have h := dateFold (dateFloor now) dateColumns (by decide) [] tables tables
    (fun q _ => rfl)
  simpa [check_date_ranges] using h

/- ----------------------------------------------------------------
   Claim C5 theorems.
   ---------------------------------------------------------------- -/

/-- C5 concrete input: one `dim_products` row with `price = -5`. -/
def c5Tables : Tables :=
  [("dim_products", ⟨["product_id", "price"],
    [[("product_id", Val.num 1), ("price", Val.num (-5))]]⟩)]

/-- C5: `check_numeric_ranges` counts, for each configured (table,
column, predicate) triple present in the input, exactly the rows whose
parseable numeric value violates the predicate (missing or unparseable
cells excluded, absent tables or columns skipped with no entry); in
particular one `dim_products` row with `price = -5` yields exactly one
violation for `dim_products.price` and makes `validate_all` return
false. -/
theorem claim_C5_numeric_ranges :
    (∀ tables : Tables,
      (check_numeric_ranges tables).1 =
        numChecks.filterMap (numEntry tables)) ∧
    (check_numeric_ranges c5Tables).1 = [("dim_products.price", 1)] ∧
    validate_all 1000000 c5Tables false = Except.ok false := by
  refine ⟨?_, by decide, by decide⟩
  intro tables
  have hpw : numChecks.Pairwise (fun a b => a.1 ≠ b.1 ∨ a.2.1 ≠ b.2.1) := by
    unfold numChecks
    refine List.Pairwise.cons ?_ (List.Pairwise.cons ?_
      (List.Pairwise.cons ?_ (List.Pairwise.cons
        (by intro b hb; simp at hb) List.Pairwise.nil)))
    · intro b hb
      simp only [List.mem_cons, List.not_mem_nil, or_false] at hb
      rcases hb with rfl | rfl | rfl
      · left; decide
      · left; decide
      · left; decide
    · intro b hb
      simp only [List.mem_cons, List.not_mem_nil, or_false] at hb
      rcases hb with rfl | rfl
      · left; decide
      · left; decide
    · intro b hb
      simp only [List.mem_cons, List.not_mem_nil, or_false] at hb
      rcases hb with rfl
      · right; decide
  have h := numFold numChecks hpw [] tables tables
    (fun q _ => tablesAgree_refl tables q)
  simpa [check_numeric_ranges] using h

/- ----------------------------------------------------------------
   Claim C6 theorem.
   ---------------------------------------------------------------- -/

/-- C6 failing input for the date check: `dim_users` holds a
`signup_date` cell that is still a raw string. -/
def c6dTables : Tables :=
  [("dim_users", ⟨["user_id", "signup_date"],
    [[("user_id", Val.num 1), ("signup_date", Val.str "2024-01-02")]]⟩)]

/-- C6 failing input for the numeric check: `dim_products` holds a
`price` cell that is still a numeric string. -/
def c6nTables : Tables :=
  [("dim_products", ⟨["product_id", "price"],
    [[("product_id", Val.num 1), ("price", Val.str "5")]]⟩)]

/-- C6 fails on the code: `check_date_ranges` and `check_numeric_ranges`
assign the coerced column back into the frame stored in the caller's
mapping (`df[col] = pd.to_datetime(df[col], ...)` on the object held in
`tables`), so the tables passed in come back changed: the string cells
above have been replaced by their coerced values. -/
theorem claim_C6_mutation_bug :
    (check_date_ranges 999900 c6dTables).2 ≠ c6dTables ∧
    (check_numeric_ranges c6nTables).2 ≠ c6nTables := by
  decide

/-- Concrete staged order-items frames used to witness
`claim_C3_item_total_backfill`. -/
def c3wWith : DF :=
  ⟨["order_item_id", "quantity", "item_price", "item_total"],
   [[("order_item_id", Val.num 4), ("quantity", Val.num 2),
     ("item_price", Val.num 5), ("item_total", Val.na)]]⟩

def c3wWithout : DF :=
  ⟨["order_item_id", "quantity", "item_price"],
   [[("order_item_id", Val.num 4), ("quantity", Val.num 2),
     ("item_price", Val.num 5)]]⟩

/- ----------------------------------------------------------------
   Claim C7: the Extractor.
   ---------------------------------------------------------------- -/

theorem loadOk_of_ne {s : SourceFile} (h : s ≠ SourceFile.unparsable) :
    load_csv_safe s = Except.ok (loadedTable s) := by
  cases s
  · rfl
  · exact absurd rfl h
  · rfl

theorem exBindError {α β : Type} (f : α → Except Unit β) :
    ((Except.error () : Except Unit α) >>= f) = Except.error () := rfl

theorem exBindOk {α β : Type} (a : α) (f : α → Except Unit β) :
    ((Except.ok a : Except Unit α) >>= f) = f a := rfl

theorem exMapError {α β : Type} (f : α → β) :
    (f <$> (Except.error () : Except Unit α)) = Except.error () := rfl

theorem exMapOk {α β : Type} (f : α → β) (a : α) :
    (f <$> (Except.ok a : Except Unit α)) = Except.ok (f a) := rfl

/-- C7: an absent raw source yields an empty table and does not stop the
other sources from loading, while a present-but-unparsable source aborts
the whole extract phase with no partial result: `load_all_raw` errors as
soon as any of the six sources is unparsable, and otherwise returns all
six tables, the absent ones empty. -/
theorem claim_C7_extractor :
    load_csv_safe SourceFile.absent = Except.ok emptyDF ∧
    load_csv_safe SourceFile.unparsable = Except.error () ∧
    (∀ src : String → SourceFile,
      (∃ n ∈ sourceNames, src n = SourceFile.unparsable) →
        load_all_raw src = Except.error ()) ∧
    (∀ src : String → SourceFile,
      (∀ n ∈ sourceNames, src n ≠ SourceFile.unparsable) →
        load_all_raw src = Except.ok
          (sourceNames.map (fun n => (n, loadedTable (src n))))) := by
  refine ⟨rfl, rfl, ?_, ?_⟩
  · rintro src ⟨n, hn, he⟩
    by_cases h1 : src "users" = SourceFile.unparsable
    · have hb : load_csv_safe (src "users") = Except.error () := by rw [h1]; rfl
      simp [load_all_raw, hb, exBindError]
    · by_cases h2 : src "products" = SourceFile.unparsable
      · have hb : load_csv_safe (src "products") = Except.error () := by
          rw [h2]; rfl
        simp [load_all_raw, loadOk_of_ne h1, hb, exBindOk, exBindError]
      · by_cases h3 : src "orders" = SourceFile.unparsable
        · have hb : load_csv_safe (src "orders") = Except.error () := by
            rw [h3]; rfl
          simp [load_all_raw, loadOk_of_ne h1, loadOk_of_ne h2, hb,
            exBindOk, exBindError]
        · by_cases h4 : src "order_items" = SourceFile.unparsable
          · have hb : load_csv_safe (src "order_items") = Except.error () := by
              rw [h4]; rfl
            simp [load_all_raw, loadOk_of_ne h1, loadOk_of_ne h2,
              loadOk_of_ne h3, hb, exBindOk, exBindError]
          · by_cases h5 : src "events" = SourceFile.unparsable
            · have hb : load_csv_safe (src "events") = Except.error () := by
                rw [h5]; rfl
              simp [load_all_raw, loadOk_of_ne h1, loadOk_of_ne h2,
                loadOk_of_ne h3, loadOk_of_ne h4, hb, exBindOk, exBindError]
            · by_cases h6 : src "reviews" = SourceFile.unparsable
              · have hb : load_csv_safe (src "reviews") = Except.error () := by
                  rw [h6]; rfl
                simp [load_all_raw, loadOk_of_ne h1, loadOk_of_ne h2,
                  loadOk_of_ne h3, loadOk_of_ne h4, loadOk_of_ne h5, hb,
                  exBindOk, exBindError, exMapError]
              · exfalso
                simp only [sourceNames, List.mem_cons, List.not_mem_nil,
                  or_false] at hn
                rcases hn with rfl | rfl | rfl | rfl | rfl | rfl
                · exact h1 he
                · exact h2 he
                · exact h3 he
                · exact h4 he
                · exact h5 he
                · exact h6 he
  · intro src h
    have h1 := loadOk_of_ne (h "users" (by decide))
    have h2 := loadOk_of_ne (h "products" (by decide))
    have h3 := loadOk_of_ne (h "orders" (by decide))
    have h4 := loadOk_of_ne (h "order_items" (by decide))
    have h5 := loadOk_of_ne (h "events" (by decide))
    have h6 := loadOk_of_ne (h "reviews" (by decide))
    simp [load_all_raw, h1, h2, h3, h4, h5, h6, sourceNames,
      exBindOk, exMapOk]

/-- Concrete source layouts used to witness `claim_C7_extractor`: in the
first, the orders source is corrupt; in the second, the users source is
missing and the rest parse. -/
def c7srcBad (n : String) : SourceFile :=
  if n == "orders" then SourceFile.unparsable else SourceFile.absent

def c7srcOk (n : String) : SourceFile :=
  if n == "users" then SourceFile.absent
  else SourceFile.good ⟨["x"], [[("x", Val.num 1)]]⟩

/-- Witness for `claim_C7_extractor` at concrete source layouts. -/
theorem claim_C7_extractor_witness :
    load_all_raw c7srcBad = Except.error () ∧
    load_all_raw c7srcOk = Except.ok
      (sourceNames.map (fun n => (n, loadedTable (c7srcOk n)))) :=
  ⟨claim_C7_extractor.2.2.1 c7srcBad ⟨"orders", by decide, by decide⟩,
   claim_C7_extractor.2.2.2 c7srcOk (by decide)⟩

/- ----------------------------------------------------------------
   Claim C8: the Sink.
   ---------------------------------------------------------------- -/

theorem fsWrite_lookup_self (fs : FileSys) (n : String) (df : DF) :
    List.lookup n (fsWrite fs n df) = some df := by
  induction fs with
  | nil => simp [fsWrite, List.lookup]
  | cons p rest ih =>
      by_cases hp : p.1 = n
      · have hb : (p.1 == n) = true := by simp [hp]
        simp [fsWrite, hb, List.lookup]
      · have hb : (p.1 == n) = false := by simp [hp]
        have hnp : (n == p.1) = false := by
          simp only [beq_eq_false_iff_ne, ne_eq]
          exact fun he => hp he.symm
        simp [fsWrite, hb, List.lookup, hnp, ih]

theorem fsWrite_lookup_ne (fs : FileSys) (n : String) (df : DF)
    {m : String} (h : m ≠ n) :
    List.lookup m (fsWrite fs n df) = List.lookup m fs := by
  induction fs with
  | nil =>
      have hmn : (m == n) = false := by
        simp only [beq_eq_false_iff_ne, ne_eq]; exact h
      simp [fsWrite, List.lookup, hmn]
  | cons p rest ih =>
      by_cases hp : p.1 = n
      · have hb : (p.1 == n) = true := by simp [hp]
        have hmn : (m == n) = false := by
          simp only [beq_eq_false_iff_ne, ne_eq]; exact h
        have hmp : (m == p.1) = false := by
          rw [hp]
          simp only [beq_eq_false_iff_ne, ne_eq]; exact h
        simp [fsWrite, hb, List.lookup, hmn, hmp]
      · have hb : (p.1 == n) = false := by simp [hp]
        cases hmp : (m == p.1)
        · simpa [fsWrite, hb, List.lookup, hmp] using ih
        · simp [fsWrite, hb, List.lookup, hmp]

/-- The failure accumulator of the `save_as_csv` loop collects exactly
the names of the non-empty tables whose write fails, in order. -/
theorem saveFold_snd (wk : String → Bool) :
    ∀ (tables : Tables) (fs : FileSys) (acc : List String),
      (tables.foldl (saveStep wk) (fs, acc)).2 = acc ++ failedTables wk tables
  | [], fs, acc => by simp [failedTables]
  | p :: rest, fs, acc => by
      simp only [List.foldl_cons]
      by_cases he : p.2.rows.isEmpty
      · rw [show saveStep wk (fs, acc) p = (fs, acc) from by
          simp [saveStep, he]]
        rw [saveFold_snd wk rest fs acc]
        have : failedTables wk (p :: rest) = failedTables wk rest := by
          simp [failedTables, List.filter_cons, he]
        rw [this]
      · by_cases hw : wk p.1
        · rw [show saveStep wk (fs, acc) p = (fsWrite fs p.1 p.2, acc) from by
            simp [saveStep, he, hw]]
          rw [saveFold_snd wk rest _ acc]
          have : failedTables wk (p :: rest) = failedTables wk rest := by
            simp [failedTables, List.filter_cons, he, hw]
          rw [this]
        · rw [show saveStep wk (fs, acc) p = (fs, acc ++ [p.1]) from by
            simp [saveStep, he, hw]]
          rw [saveFold_snd wk rest fs (acc ++ [p.1])]
          have : failedTables wk (p :: rest) =
              p.1 :: failedTables wk rest := by
            simp [failedTables, List.filter_cons, he, hw]
          rw [this, List.append_assoc]
          rfl

/-- A name whose every occurrence in the table list is empty or fails to
write keeps its previous sink contents. -/
theorem saveFold_fst_untouched (wk : String → Bool) :
    ∀ (tables : Tables) (fs : FileSys) (acc : List String) (n : String),
      (∀ p ∈ tables, p.1 = n →
        p.2.rows.isEmpty = true ∨ wk p.1 = false) →
      List.lookup n (tables.foldl (saveStep wk) (fs, acc)).1 =
        List.lookup n fs
  | [], fs, acc, n, _ => rfl
  | p :: rest, fs, acc, n, h => by
      simp only [List.foldl_cons]
      by_cases he : p.2.rows.isEmpty
      · rw [show saveStep wk (fs, acc) p = (fs, acc) from by
          simp [saveStep, he]]
        exact saveFold_fst_untouched wk rest fs acc n
          (fun q hq => h q (List.mem_cons_of_mem p hq))
      · by_cases hw : wk p.1
        · have hpn : p.1 ≠ n := by
            intro hpn
            rcases h p (List.mem_cons_self p rest) hpn with hc | hc
            · exact he (by simp [hc])
            · rw [hw] at hc; cases hc
          rw [show saveStep wk (fs, acc) p = (fsWrite fs p.1 p.2, acc) from by
            simp [saveStep, he, hw]]
          rw [saveFold_fst_untouched wk rest _ acc n
            (fun q hq => h q (List.mem_cons_of_mem p hq))]
          exact fsWrite_lookup_ne fs p.1 p.2 (fun hmn => hpn hmn.symm)
        · rw [show saveStep wk (fs, acc) p = (fs, acc ++ [p.1]) from by
            simp [saveStep, he, hw]]
          exact saveFold_fst_untouched wk rest fs _ n
            (fun q hq => h q (List.mem_cons_of_mem p hq))

/-- With distinct table names, every non-empty successfully written
table ends up in the sink with exactly its contents. -/
theorem saveFold_fst_written (wk : String → Bool) :
    ∀ (tables : Tables) (fs : FileSys) (acc : List String),
      (tables.map (fun p => p.1)).Nodup →
      ∀ p ∈ tables, p.2.rows.isEmpty = false → wk p.1 = true →
        List.lookup p.1 (tables.foldl (saveStep wk) (fs, acc)).1 = some p.2
  | [], _, _, _, p, hp => by simp at hp
  | q :: rest, fs, acc, hnd, p, hp => by
      intro hne hwk
      have hnd2 : q.1 ∉ rest.map (fun p => p.1) ∧
          (rest.map (fun p => p.1)).Nodup := by
        rw [List.map_cons, List.nodup_cons] at hnd
        exact hnd
      rcases List.mem_cons.1 hp with rfl | hp2
      · simp only [List.foldl_cons]
        rw [show saveStep wk (fs, acc) p = (fsWrite fs p.1 p.2, acc) from by
          simp [saveStep, hne, hwk]]
        rw [saveFold_fst_untouched wk rest _ acc p.1
          (fun r hr hrp => absurd (hrp ▸ List.mem_map_of_mem
            (fun t => t.1) hr) hnd2.1)]
        exact fsWrite_lookup_self fs p.1 p.2
      · simp only [List.foldl_cons]
        exact saveFold_fst_written wk rest _ _ hnd2.2 p hp2 hne hwk

/-- C8 counterexample: the warehouse mapping contains one (empty)
table, every write succeeds, yet `save_as_csv` returns normally without
writing it — the sink keeps the previous contents of `fact_orders`,
which differ from the empty frame. -/
theorem claim_C8_counterexample :
    save_as_csv (fun _ => true) [("fact_orders", emptyDF)]
        [("fact_orders", ⟨["order_id"], [[("order_id", Val.num 1)]]⟩)] =
      Except.ok [("fact_orders", ⟨["order_id"], [[("order_id", Val.num 1)]]⟩)] ∧
    (⟨["order_id"], [[("order_id", Val.num 1)]]⟩ : DF) ≠ emptyDF := by
  decide

/-- C8 (amended): `save_as_csv` returns normally exactly when every
non-empty table was written (empty frames are skipped with a warning and
leave the sink untouched); on success every non-empty table's file holds
exactly its rows, fully replacing previous contents; when writes fail it
still attempts every remaining table and raises one error naming every
failed non-empty table in order. -/
theorem claim_C8_save_as_csv :
    (∀ (wk : String → Bool) (tables : Tables) (fs : FileSys)
      (l : List String),
      save_as_csv wk tables fs = Except.error l →
        l = failedTables wk tables ∧ l ≠ []) ∧
    (∀ (wk : String → Bool) (tables : Tables) (fs : FileSys),
      failedTables wk tables = [] →
      save_as_csv wk tables fs = Except.ok (saveResultFs wk tables fs)) ∧
    (∀ (wk : String → Bool) (tables : Tables) (fs : FileSys),
      (tables.map (fun p => p.1)).Nodup →
      ∀ p ∈ tables, p.2.rows.isEmpty = false → wk p.1 = true →
        List.lookup p.1 (saveResultFs wk tables fs) = some p.2) ∧
    (∀ (wk : String → Bool) (tables : Tables) (fs : FileSys) (n : String),
      (∀ p ∈ tables, p.1 = n →
        p.2.rows.isEmpty = true ∨ wk p.1 = false) →
      List.lookup n (saveResultFs wk tables fs) = List.lookup n fs) := by
  refine ⟨?_, ?_, ?_, ?_⟩
  · intro wk tables fs l h
    have hsnd := saveFold_snd wk tables fs []
    simp only [List.nil_append] at hsnd
    by_cases hE : (tables.foldl (saveStep wk)
        (fs, ([] : List String))).2.isEmpty
    · rw [save_as_csv, if_pos hE] at h
      exact Except.noConfusion h
    · rw [save_as_csv, if_neg hE] at h
      injection h with h1
      subst h1
      rw [hsnd] at hE ⊢
      exact ⟨rfl, by simpa [List.isEmpty_iff] using hE⟩
  · intro wk tables fs h
    have hsnd := saveFold_snd wk tables fs []
    simp only [List.nil_append] at hsnd
    rw [save_as_csv, saveResultFs,
      if_pos (by rw [hsnd, h]; rfl)]
  · intro wk tables fs hnd p hp hne hwk
    exact saveFold_fst_written wk tables fs [] hnd p hp hne hwk
  · intro wk tables fs n h
    exact saveFold_fst_untouched wk tables fs [] n h

/-- Concrete sink scenarios used to witness `claim_C8_save_as_csv`: the
write of `fact_events` fails, `dim_users` is written, `empty_t` is
skipped. -/
def c8wk (n : String) : Bool := !(n == "fact_events")

def c8df1 : DF := ⟨["user_id"], [[("user_id", Val.num 1)]]⟩

def c8df2 : DF := ⟨["event_id"], [[("event_id", Val.num 2)]]⟩

def c8Tables : Tables :=
  [("dim_users", c8df1), ("fact_events", c8df2), ("empty_t", emptyDF)]

def c8fs0 : FileSys := [("empty_t", c8df1)]

/-- Witness for `claim_C8_save_as_csv` at concrete inputs. -/
theorem claim_C8_save_as_csv_witness :
    (["fact_events"] = failedTables c8wk c8Tables ∧
      (["fact_events"] : List String) ≠ []) ∧
    save_as_csv (fun _ => true) c8Tables c8fs0 =
      Except.ok (saveResultFs (fun _ => true) c8Tables c8fs0) ∧
    List.lookup "dim_users" (saveResultFs c8wk c8Tables c8fs0) = some c8df1 ∧
    List.lookup "empty_t" (saveResultFs c8wk c8Tables c8fs0) =
      List.lookup "empty_t" c8fs0 :=
  ⟨claim_C8_save_as_csv.1 c8wk c8Tables c8fs0 ["fact_events"] (by decide),
   claim_C8_save_as_csv.2.1 (fun _ => true) c8Tables c8fs0 (by decide),
   claim_C8_save_as_csv.2.2.1 c8wk c8Tables c8fs0 (by decide)
     ("dim_users", c8df1) (by decide) (by decide) (by decide),
   claim_C8_save_as_csv.2.2.2 c8wk c8Tables c8fs0 "empty_t" (by decide)⟩

/-- Witness for `claim_C3_item_total_backfill` at concrete inputs. -/
theorem claim_C3_item_total_backfill_witness :
    build_fact_order_items c3wWith = Except.ok
      ⟨c3wWith.cols, c3wWith.rows.map (fun r =>
        if (Row.get r "item_total").isNa then
          Row.set r "item_total"
            (valMul (Row.get r "quantity") (Row.get r "item_price"))
        else r)⟩ ∧
    build_fact_order_items c3wWithout = Except.ok
      ⟨c3wWithout.cols ++ ["item_total"], c3wWithout.rows.map (fun r =>
        Row.set r "item_total"
          (valMul (Row.get r "quantity") (Row.get r "item_price")))⟩ :=
  ⟨claim_C3_item_total_backfill.1 c3wWith (by decide) (by decide) (by decide),
   claim_C3_item_total_backfill.2.1 c3wWithout (by decide) (by decide)
     (by decide)⟩

/- ----------------------------------------------------------------
   Claim C9: the RunStateStore.
   ---------------------------------------------------------------- -/

/-- C9: `should_run_full_load` is true exactly when the loaded state has
no `last_run` value — the record is absent, unreadable, or holds a null
`last_run`; in the absent and unreadable cases `get_last_run_timestamp`
degrades to the first-run state (null `last_run`, empty table map)
instead of raising; and a state written by `update_run_timestamp` always
carries a non-null `last_run`. -/
theorem claim_C9_run_state :
    (∀ disk : Option (Except Unit RunState),
      should_run_full_load disk = true ↔
        disk = none ∨ disk = some (Except.error ()) ∨
        ∃ s, disk = some (Except.ok s) ∧ s.lastRun = none) ∧
    get_last_run_timestamp none = firstRunState ∧
    get_last_run_timestamp (some (Except.error ())) = firstRunState ∧
    (∀ (now : Nat) (ts : List (String × String)),
      (update_run_timestamp now ts).lastRun = some now) := by
  refine ⟨?_, rfl, rfl, fun now ts => rfl⟩
  intro disk
  rcases disk with _ | e
  · simp [should_run_full_load, get_last_run_timestamp, firstRunState]
  · rcases e with u | s
    · cases u
      simp [should_run_full_load, get_last_run_timestamp, firstRunState]
    · simp [should_run_full_load, get_last_run_timestamp,
        Option.isNone_iff_eq_none]

/-- Witness for `claim_C9_run_state` at concrete disk states. -/
theorem claim_C9_run_state_witness :
    should_run_full_load none = true ∧
    should_run_full_load (some (Except.error ())) = true ∧
    should_run_full_load (some (Except.ok ⟨some 5, []⟩)) = false :=
  ⟨(claim_C9_run_state.1 none).mpr (Or.inl rfl),
   (claim_C9_run_state.1 (some (Except.error ()))).mpr (Or.inr (Or.inl rfl)),
   by
     have h := claim_C9_run_state.1 (some (Except.ok ⟨some 5, []⟩))
     rcases hb : should_run_full_load (some (Except.ok ⟨some 5, []⟩)) with _ | _
     · rfl
     · rcases h.mp hb with hc | hc | ⟨s, hs, hlast⟩
       · cases hc
       · cases hc
       · cases hs
         cases hlast⟩

/- ----------------------------------------------------------------
   Claim C10: text normalization is not null-preserving.
   ---------------------------------------------------------------- -/

/-- Concrete raw tables whose categorical cells are all missing. -/
def c10users : DF :=
  ⟨["user_id", "signup_date", "gender", "city"],
   [[("user_id", Val.num 1), ("signup_date", Val.date 0),
     ("gender", Val.na), ("city", Val.na)]]⟩

def c10orders : DF :=
  ⟨["order_id", "order_date", "order_status", "total_amount"],
   [[("order_id", Val.num 1), ("order_date", Val.date 0),
     ("order_status", Val.na), ("total_amount", Val.num 5)]]⟩

def c10events : DF :=
  ⟨["event_id", "event_timestamp", "event_type"],
   [[("event_id", Val.num 1), ("event_timestamp", Val.date 0),
     ("event_type", Val.na)]]⟩

/-- C10: the staged categorical columns never hold a missing marker —
`astype(str)` stringifies NaN — so a missing `users.gender` cell comes
out as the literal text "Nan" (title-cased "nan"), a missing
`users.city` as "nan", and missing `orders.order_status` /
`events.event_type` as "nan" (lower-cased), indistinguishable from real
text downstream. -/
theorem claim_C10_text_normalization :
    (∀ (df : DF) (out : DF), stage_users df = Except.ok out →
      ∀ r ∈ out.rows, (Row.get r "gender").isStr = true ∧
        (Row.get r "city").isStr = true) ∧
    (∀ (df : DF) (out : DF), stage_orders df = Except.ok out →
      ∀ r ∈ out.rows, (Row.get r "order_status").isStr = true) ∧
    (∀ (df : DF) (out : DF), stage_events df = Except.ok out →
      ∀ r ∈ out.rows, (Row.get r "event_type").isStr = true) ∧
    (stage_users c10users).map
      (fun d => d.rows.map (fun r => Row.get r "gender")) =
      Except.ok [Val.str "Nan"] ∧
    (stage_users c10users).map
      (fun d => d.rows.map (fun r => Row.get r "city")) =
      Except.ok [Val.str "nan"] ∧
    (stage_orders c10orders).map
      (fun d => d.rows.map (fun r => Row.get r "order_status")) =
      Except.ok [Val.str "nan"] ∧
    (stage_events c10events).map
      (fun d => d.rows.map (fun r => Row.get r "event_type")) =
      Except.ok [Val.str "nan"] := by
  refine ⟨?_, ?_, ?_, by decide, by decide, by decide, by decide⟩
  · intro df out h r hr
    rw [stage_users] at h
    split at h
    · injection h with h
      subst h
      have hr2 : r ∈ (usersClean df).rows :=
        (dropDuplicates_rows_sublist (usersClean df) "user_id").subset hr
      rw [usersClean, DF.mapCol_rows] at hr2
      obtain ⟨r1, hr1, rfl⟩ := List.mem_map.1 hr2
      rw [DF.mapCol_rows] at hr1
      obtain ⟨r2, hr2', rfl⟩ := List.mem_map.1 hr1
      constructor
      · rw [Row.get_set, if_neg (by decide), Row.get_set, if_pos rfl]
        rfl
      · rw [Row.get_set, if_pos rfl]
        rfl
    · exact Except.noConfusion h
  · intro df out h r hr
    rw [stage_orders] at h
    split at h
    · injection h with h
      subst h
      have hr2 : r ∈ (ordersClean df).rows :=
        (dropDuplicates_rows_sublist (ordersClean df) "order_id").subset hr
      rw [ordersClean, DF.mapCol_rows] at hr2
      obtain ⟨r1, hr1, rfl⟩ := List.mem_map.1 hr2
      rw [DF.mapCol_rows] at hr1
      obtain ⟨r2, hr2', rfl⟩ := List.mem_map.1 hr1
      rw [Row.get_set, if_neg (by decide), Row.get_set, if_pos rfl]
      rfl
    · exact Except.noConfusion h
  · intro df out h r hr
    rw [stage_events] at h
    split at h
    · injection h with h
      subst h
      have hr2 : r ∈ (eventsClean df).rows :=
        (dropDuplicates_rows_sublist (eventsClean df) "event_id").subset hr
      rw [eventsClean, DF.mapCol_rows] at hr2
      obtain ⟨r1, hr1, rfl⟩ := List.mem_map.1 hr2
      rw [Row.get_set, if_pos rfl]
      rfl
    · exact Except.noConfusion h

/-- The single staged row of `c10users`. -/
def c10row : Row :=
  [("user_id", Val.num 1), ("signup_date", Val.date 0),
   ("gender", Val.str "Nan"), ("city", Val.str "nan")]

/-- Witness for `claim_C10_text_normalization` at a concrete input. -/
theorem claim_C10_text_normalization_witness :
    (Row.get c10row "gender").isStr = true ∧
    (Row.get c10row "city").isStr = true :=
  claim_C10_text_normalization.1 c10users
    ((usersClean c10users).dropDuplicates "user_id") (by decide)
    c10row (by decide)

end ETL
